import Mathlib

/-!
# QtSsh: the connection / authentication state machine of `SshClient`

A shallow embedding of `src/sshclient.cpp`.  The object's member variables
become the fields of `Session`; every slot and method becomes a function on
`Session`.  The protocol engine (libssh2) is an oracle `Engine`: each
result-bearing primitive, issued when `Session.calls = i`, answers with the
value the oracle holds at index `i`.  Everything the object does that is
visible from outside (signals emitted, engine primitives and transport calls
issued) is appended, in program order, to `Session.trace`.

Slots that listeners outside this file attach to the emitted signals are not
part of the model; the one connection made by the constructor that the state
machine itself triggers (`connected()` to `_connected()`) is.
-/

namespace QtSsh

/-! ## Constants of libssh2.h -/

/-- The engine's would-block return code. -/
def LIBSSH2_ERROR_EAGAIN : Int := -37

def LIBSSH2_HOSTKEY_TYPE_RSA : Int := 1
def LIBSSH2_HOSTKEY_TYPE_DSS : Int := 2

def LIBSSH2_KNOWNHOST_TYPE_PLAIN : Nat := 1
def LIBSSH2_KNOWNHOST_KEYENC_RAW : Nat := 1 <<< 16
def LIBSSH2_KNOWNHOST_KEY_SSHRSA : Nat := 2 <<< 18
def LIBSSH2_KNOWNHOST_KEY_SSHDSS : Nat := 3 <<< 18

def LIBSSH2_KNOWNHOST_CHECK_MATCH : Int := 0
def LIBSSH2_KNOWNHOST_CHECK_MISMATCH : Int := 1
def LIBSSH2_KNOWNHOST_CHECK_NOTFOUND : Int := 2

/-! ## Data model -/

/-- A byte string (`QByteArray`, `char *`); bytes are written as characters. -/
abbrev QByteArray := List Char

/-- Modelled from the spec: `sshclient.h` is not among the sources, so the
enumerators of `SshClient::SshState` are the seven names `sshclient.cpp` uses,
numbered in the order of the state path of the spec's section 4.2
(Idle, TcpConnected, HandshakeInProgress, AuthMethodsQueried,
ChoosingAuthMethod, AuthAttemptInProgress, ChannelsReady). -/
inductive SshState
  | NoState
  | TcpHostConnected
  | InitializeSession
  | RequestAuthTypes
  | LookingAuthOptions
  | TryingAuthentication
  | ActivatingChannels
  deriving DecidableEq, Repr

/-- Numeric value of a state enumerator, used by the `_state > TcpHostConnected` tests. -/
def SshState.toNat : SshState → Nat
  | .NoState => 0
  | .TcpHostConnected => 1
  | .InitializeSession => 2
  | .RequestAuthTypes => 3
  | .LookingAuthOptions => 4
  | .TryingAuthentication => 5
  | .ActivatingChannels => 6

/-- The enumerators of `SshClient::Error` that the source and the spec name.
Their numeric values live in the absent header; every function that stores one
in `_errorcode` takes the numbering `code : Error → Int` as a parameter. -/
inductive Error
  | NoError
  | AuthenticationError
  | HostKeyUnknownError
  | HostKeyMismatchError
  | ConnectionRefusedError
  | UnexpectedShutdownError
  | TimeOut
  deriving DecidableEq, Repr

/-- The two enumerators of `SshClient::AuthenticationMethod`. -/
inductive AuthenticationMethod
  | PasswordAuthentication
  | PublicKeyAuthentication
  deriving DecidableEq, Repr

open AuthenticationMethod (PasswordAuthentication PublicKeyAuthentication)

/-- The enumerators of `SshKey::Type`. -/
inductive KeyType
  | Dss
  | Rsa
  | UnknownType
  deriving DecidableEq, Repr

/-- The host identity `SshKey`. -/
structure SshKey where
  type : KeyType
  key : QByteArray
  hash : QByteArray
  deriving DecidableEq, Repr

/-- Signals of `SshClient` (and the inherited `connected()`), with their arguments. -/
inductive Signal
  | connected
  | sshConnected
  | sshDisconnected
  | sshError (e : Error)
  | sshAuthenticationRequired (availableMethods : List AuthenticationMethod)
  | sshDataReceived
  | sshReset
  | connectionTerminate
  | xfer_rate (tx rx : Int)
  deriving DecidableEq, Repr

/-- Calls the object issues to the protocol engine, to the transport socket and to its timers.
The two temporary files handed to `libssh2_userauth_publickey_fromfile` are represented by
what `_readyRead` writes into them. -/
inductive Call
  | session_startup
  | knownhost_check (hostname : String) (key : QByteArray) (typemask : Nat)
  | userauth_list (username : String)
  | userauth_password (username password : String)
  | userauth_publickey_fromfile (username publicKey privateKey passphrase : String)
  | knownhost_add (hostname : String) (key : QByteArray) (typemask : Nat)
  | knownhost_free
  | session_disconnect
  | session_free
  | session_init_ex
  | callback_set_recv
  | callback_set_send
  | knownhost_init
  | session_set_blocking
  | keepalive_config
  | keepalive_send
  | connectToHost (hostname : String) (port : Nat)
  | disconnectFromHost
  | singleShot_readyRead
  deriving DecidableEq, Repr

/-- One entry of the observable trace. -/
inductive Event
  | sig (s : Signal)
  | call (c : Call)
  deriving DecidableEq, Repr

/-- One record of the engine's known-hosts collection. -/
structure KnownHost where
  hostname : String
  key : QByteArray
  typemask : Nat
  deriving DecidableEq, Repr

/-- The member variables of `SshClient`, a call counter for the engine oracle, and the trace. -/
structure Session where
  state : SshState
  errorcode : Int
  errorMessage : String
  failedMethods : List AuthenticationMethod
  availableMethods : List AuthenticationMethod
  currentAuthTry : AuthenticationMethod
  hostname : String
  username : String
  port : Nat
  /-- A `QString`: `none` is the null string. -/
  passphrase : Option String
  publicKey : Option String
  privateKey : Option String
  hostKey : SshKey
  delayError : Error
  /-- Whether `_session` is non-NULL. -/
  session : Bool
  /-- The collection behind `_knownHosts`: `none` is the NULL handle. -/
  knownHosts : Option (List KnownHost)
  /-- Whether the `_keepalive` timer is active. -/
  keepalive : Bool
  cntTxData : Int
  cntRxData : Int
  /-- Number of result-bearing engine primitives issued so far. -/
  calls : Nat
  trace : List Event
  deriving DecidableEq, Repr

/-- The answers of the protocol engine.  A primitive issued when the call
counter is `i` returns the value at `i`; the queries that follow it
(`session_hostkey`, `hostkey_hash`, `knownhost_check`, `userauth_authenticated`,
`session_last_error`) are read at the same index. -/
structure Engine where
  session_startup : Nat → Int
  /-- The key pointer (`none` is NULL) and the `type` out-parameter. -/
  session_hostkey : Nat → Option QByteArray × Int
  hostkey_hash : Nat → QByteArray
  knownhost_check : Nat → Int
  /-- The advertised list, `none` for a NULL result. -/
  userauth_list : Nat → Option QByteArray
  userauth_authenticated : Nat → Bool
  session_last_error : Nat → Int × String
  userauth_password : Nat → Int
  userauth_publickey_fromfile : Nat → Int
  knownhost_add : Nat → Int

/-! ## Small helpers on the session record -/

/-- Emitting a signal: recorded on the trace. -/
def Session.emit (s : Session) (g : Signal) : Session :=
  { s with trace := s.trace ++ [Event.sig g] }

/-- A call without a modelled result: recorded on the trace. -/
def Session.log (s : Session) (c : Call) : Session :=
  { s with trace := s.trace ++ [Event.call c] }

/-- A result-bearing engine primitive: recorded on the trace, and the oracle index advances. -/
def Session.engineCall (s : Session) (c : Call) : Session :=
  { s with trace := s.trace ++ [Event.call c], calls := s.calls + 1 }

/-- The text `qPrintable` passes on: empty for a null `QString`. -/
def qPrintable (q : Option String) : String := q.getD ""

/-- The method `QByteArray::split`: the pieces between the separators, empty pieces included. -/
def split (sep : Char) : QByteArray → List QByteArray
  | [] => [[]]
  | c :: cs =>
    match split sep cs with
    | [] => [[]]
    | p :: ps => if c = sep then [] :: p :: ps else (c :: p) :: ps

/-! ## Methods of `SshClient` -/

/-- The member function `SshClient::channelReady`. -/
def channelReady (s : Session) : Bool :=
  s.state == SshState.ActivatingChannels

/-- The member function `SshClient::_getLastError`, reading the engine's last error of the
primitive issued at index `i`. -/
def getLastError (eng : Engine) (i : Nat) (s : Session) : Session :=
  { s with errorcode := (eng.session_last_error i).1,
           errorMessage := (eng.session_last_error i).2 }

/-- The member function `SshClient::_reset`.  The three guarded engine calls only leave an
entry on the trace. -/
def reset (s : Session) : Session :=
  { s with
      keepalive := false,
      state := SshState.NoState,
      errorcode := 0,
      errorMessage := "",
      failedMethods := [],
      availableMethods := [],
      session := true,
      knownHosts := some [],
      trace := s.trace ++ [Event.sig Signal.sshReset]
        ++ (if s.knownHosts.isSome then [Event.call Call.knownhost_free] else [])
        ++ (if s.state.toNat > SshState.TcpHostConnected.toNat then [Event.call Call.session_disconnect]
            else [])
        ++ (if s.session then [Event.call Call.session_free] else [])
        ++ [Event.call Call.session_init_ex, Event.call Call.callback_set_recv,
          Event.call Call.callback_set_send, Event.call Call.knownhost_init,
          Event.call Call.session_set_blocking, Event.call Call.disconnectFromHost] }

/-- The member function `SshClient::disconnectFromHost`. -/
def disconnectFromHost (s : Session) : Session := reset s

/-- The member function `SshClient::setPassphrase`.  `removeAll` is a filter; the single-shot timer that
schedules `_readyRead()` leaves an entry on the trace. -/
def setPassphrase (pass : Option String) (s : Session) : Session :=
  { s with
    failedMethods := (s.failedMethods.filter (· ≠ PasswordAuthentication)).filter
      (· ≠ PublicKeyAuthentication),
    passphrase := pass,
    trace := s.trace ++
      (if s.state.toNat > SshState.TcpHostConnected.toNat then [Event.call Call.singleShot_readyRead]
       else []) }

/-- The member function `SshClient::setKeys`. -/
def setKeys (publicKey privateKey : Option String) (s : Session) : Session :=
  { s with
    failedMethods := s.failedMethods.filter (· ≠ PublicKeyAuthentication),
    publicKey := publicKey,
    privateKey := privateKey,
    trace := s.trace ++
      (if s.state.toNat > SshState.TcpHostConnected.toNat then [Event.call Call.singleShot_readyRead]
       else []) }

/-- The member function `SshClient::addKnownHost`: the new session and the returned `bool`.  The
engine's `libssh2_knownhost_add` stores the record when it returns 0. -/
def addKnownHost (eng : Engine) (hostname : String) (key : SshKey) (s : Session) : Session × Bool :=
  let typemask := LIBSSH2_KNOWNHOST_TYPE_PLAIN ||| LIBSSH2_KNOWNHOST_KEYENC_RAW
  let go (typemask : Nat) : Session × Bool :=
    let ret := eng.knownhost_add s.calls
    let s1 := s.engineCall (Call.knownhost_add hostname key.key typemask)
    let s2 := if ret = 0 then
        { s1 with knownHosts := s1.knownHosts.map (· ++ [KnownHost.mk hostname key.key typemask]) }
      else s1
    (s2, decide (ret ≠ 0))
  match key.type with
  | KeyType.Dss => go (typemask ||| LIBSSH2_KNOWNHOST_KEY_SSHDSS)
  | KeyType.Rsa => go (typemask ||| LIBSSH2_KNOWNHOST_KEY_SSHRSA)
  | KeyType.UnknownType => (s, false)

/-- The member function `SshClient::hostKey`. -/
def hostKey (s : Session) : SshKey := s.hostKey

/-- The member function `SshClient::hostName`. -/
def hostName (s : Session) : String := s.hostname

/-- The member function `SshClient::_cntRate`. -/
def cntRate (s : Session) : Session :=
  { s.emit (Signal.xfer_rate s.cntTxData s.cntRxData) with cntRxData := 0, cntTxData := 0 }

/-- The member function `SshClient::_sendKeepAlive`. -/
def sendKeepAlive (s : Session) : Session := s.log Call.keepalive_send

/-- The conversion of the `type` out-parameter of `libssh2_session_hostkey` (the inner `switch`). -/
def hostKeyType (type : Int) : KeyType :=
  if type = LIBSSH2_HOSTKEY_TYPE_RSA then KeyType.Rsa
  else if type = LIBSSH2_HOSTKEY_TYPE_DSS then KeyType.Dss
  else KeyType.UnknownType

/-- The `foreach` over the advertised names in case `RequestAuthTypes`. -/
def appendAdvertised (available : List AuthenticationMethod) : List QByteArray → List AuthenticationMethod
  | [] => available
  | m :: ms =>
    if m = "publickey".toList then
      appendAdvertised (available ++ [PublicKeyAuthentication]) ms
    else if m = "password".toList then
      appendAdvertised (available ++ [PasswordAuthentication]) ms
    else appendAdvertised available ms

/-- The member function `SshClient::_readyRead`, the re-entry function.  Each nested call of
`_readyRead()` in the source spends one unit of `fuel`; `none` means the fuel
ran out before the outermost call returned.  `emit connected()` in the
null-auth branch runs the slot `_connected()` the constructor attached to it,
which sets `_state = InitializeSession` and calls `_readyRead()`. -/
def readyRead (code : Error → Int) (eng : Engine) : Nat → Session → Option Session
  | 0, _ => none
  | fuel + 1, s =>
    match s.state with
    | SshState.InitializeSession =>
      let i := s.calls
      let ret := eng.session_startup i
      let s1 := s.engineCall Call.session_startup
      if ret = LIBSSH2_ERROR_EAGAIN then some s1
      else if ret ≠ 0 then
        let s2 := s1.emit (Signal.sshError Error.UnexpectedShutdownError)
        let s3 := { s2 with errorcode := code Error.UnexpectedShutdownError }
        let s4 := s3.emit Signal.connectionTerminate
        some (reset s4)
      else
        let fingerprint := (eng.session_hostkey i).1
        let type := (eng.session_hostkey i).2
        let s2 := { s1 with hostKey :=
          { key := fingerprint.getD [], hash := eng.hostkey_hash i, type := hostKeyType type } }
        match fingerprint with
        | some f =>
          let s3 := s2.log (Call.knownhost_check s2.hostname f
            (LIBSSH2_KNOWNHOST_TYPE_PLAIN ||| LIBSSH2_KNOWNHOST_KEYENC_RAW))
          readyRead code eng fuel { s3 with state := SshState.RequestAuthTypes }
        | none => some s2
    | SshState.RequestAuthTypes =>
      let i := s.calls
      let s1 := s.engineCall (Call.userauth_list s.username)
      match eng.userauth_list i with
      | none =>
        if eng.userauth_authenticated i then
          let s2 := s1.emit Signal.connected
          match readyRead code eng fuel { s2 with state := SshState.InitializeSession } with
          | none => none
          | some s3 => some { s3 with state := SshState.TryingAuthentication }
        else if (eng.session_last_error i).1 = LIBSSH2_ERROR_EAGAIN then some s1
        else
          let s2 := getLastError eng i s1
          let s3 := s2.emit (Signal.sshError Error.UnexpectedShutdownError)
          let s4 := { s3 with errorcode := code Error.UnexpectedShutdownError }
          let s5 := s4.emit Signal.connectionTerminate
          some ((reset s5).emit Signal.sshDisconnected)
      | some alist =>
        let s2 := { s1 with availableMethods := appendAdvertised s1.availableMethods (split ',' alist) }
        readyRead code eng fuel { s2 with state := SshState.LookingAuthOptions }
    | SshState.LookingAuthOptions =>
      if s.availableMethods.contains PublicKeyAuthentication &&
          s.privateKey.isSome &&
          !s.failedMethods.contains PublicKeyAuthentication then
        readyRead code eng fuel
          { s with currentAuthTry := PublicKeyAuthentication,
                   state := SshState.TryingAuthentication }
      else if s.availableMethods.contains PasswordAuthentication &&
          s.passphrase.isSome &&
          !s.failedMethods.contains PasswordAuthentication then
        readyRead code eng fuel
          { s with currentAuthTry := PasswordAuthentication,
                   state := SshState.TryingAuthentication }
      else
        let s1 := { s with errorcode := code Error.AuthenticationError }
        let s2 := s1.emit (Signal.sshAuthenticationRequired s1.availableMethods)
        some (s2.emit Signal.connectionTerminate)
    | SshState.TryingAuthentication =>
      let i := s.calls
      let ret := match s.currentAuthTry with
        | PasswordAuthentication => eng.userauth_password i
        | PublicKeyAuthentication => eng.userauth_publickey_fromfile i
      let s1 := match s.currentAuthTry with
        | PasswordAuthentication =>
          s.engineCall (Call.userauth_password s.username (qPrintable s.passphrase))
        | PublicKeyAuthentication =>
          s.engineCall (Call.userauth_publickey_fromfile s.username
            (qPrintable s.publicKey) (qPrintable s.privateKey) (qPrintable s.passphrase))
      if ret = LIBSSH2_ERROR_EAGAIN then some s1
      else if ret = 0 then
        let s2 := { s1 with state := SshState.ActivatingChannels, errorcode := code Error.NoError }
        let s3 := s2.emit Signal.sshConnected
        some (s3.emit Signal.connectionTerminate)
      else
        let s2 := getLastError eng i s1
        let s3 := { s2 with errorcode := code Error.AuthenticationError }
        let s4 := s3.emit (Signal.sshError Error.AuthenticationError)
        let s5 := s4.emit Signal.connectionTerminate
        let s6 := { s5 with failedMethods := s5.failedMethods ++ [s5.currentAuthTry],
                            state := SshState.LookingAuthOptions }
        readyRead code eng fuel s6
    | SshState.ActivatingChannels => some (s.emit Signal.sshDataReceived)
    | _ => some s

/-- The member function `SshClient::_connected`. -/
def connected (code : Error → Int) (eng : Engine) (fuel : Nat) (s : Session) : Option Session :=
  readyRead code eng fuel { s with state := SshState.InitializeSession }

/-- The argument of the transport's `error` signal, as far as `_tcperror` tells errors apart. -/
inductive SocketError
  | ConnectionRefusedError
  | OtherError
  deriving DecidableEq, Repr

/-- The member function `SshClient::_tcperror`. -/
def tcperror (code : Error → Int) (err : SocketError) (s : Session) : Session :=
  match err with
  | SocketError.ConnectionRefusedError =>
    let s1 := { s with errorcode := code Error.ConnectionRefusedError }
    let s2 := s1.emit (Signal.sshError Error.ConnectionRefusedError)
    s2.emit Signal.connectionTerminate
  | SocketError.OtherError => s

/-- The member function `SshClient::_disconnected`. -/
def disconnected (s : Session) : Session :=
  let s1 := { s with keepalive := false }
  let s2 := if s1.state ≠ SshState.NoState then reset s1 else s1
  s2.emit Signal.sshDisconnected

/-- The member function `SshClient::_delaydErrorEmit`. -/
def delaydErrorEmit (code : Error → Int) (s : Session) : Session :=
  let s1 := s.emit (Signal.sshError s.delayError)
  let s2 := { s1 with errorcode := code s1.delayError }
  s2.emit Signal.connectionTerminate

/-! ## The local event loop of `connectSshToHost` -/

/-- What the event loop `wait` can deliver while `connectSshToHost` blocks in
`wait.exec()`: the transport's signals, and the tick of the local `timeout` timer. -/
inductive LoopEvent
  | connected
  | readyRead
  | error (err : SocketError)
  | disconnected
  | timeout
  deriving DecidableEq, Repr

/-- The slot the constructor attached to each transport signal. -/
def dispatch (code : Error → Int) (eng : Engine) (fuel : Nat) : LoopEvent → Session → Option Session
  | LoopEvent.connected, s => connected code eng fuel s
  | LoopEvent.readyRead, s => readyRead code eng fuel s
  | LoopEvent.error err, s => some (tcperror code err s)
  | LoopEvent.disconnected, s => some (disconnected s)
  | LoopEvent.timeout, s => some s

/-- The call `wait.exec()`: deliver the pending events in order until `wait.quit()` is
requested, by the `timeout` timer or by a slot that emitted
`_connectionTerminate()`.  The timer is periodic, so when nothing else is
pending its tick is what arrives next.  Returns the events not yet delivered. -/
def exec (code : Error → Int) (eng : Engine) (fuel : Nat) :
    List LoopEvent → Session → Option (Session × List LoopEvent)
  | [], s => some (s, [])
  | LoopEvent.timeout :: es, s => some (s, es)
  | e :: es, s =>
    match dispatch code eng fuel e s with
    | none => none
    | some s1 =>
      if Event.sig Signal.connectionTerminate ∈ s1.trace.drop s.trace.length then some (s1, es)
      else exec code eng fuel es s1

/-- The `do ... while(_errorcode && retry--)` loop of `connectSshToHost`. -/
def connectLoop (code : Error → Int) (eng : Engine) (fuel : Nat) (lock checkHostKey : Bool) :
    Nat → List LoopEvent → Session → Option (Session × List LoopEvent)
  | retry, events, s =>
    let s1 := s.log (Call.connectToHost s.hostname s.port)
    let waited : Option (Session × List LoopEvent) :=
      if lock then exec code eng fuel events s1 else some (s1, events)
    match waited with
    | none => none
    | some (s2, rest) =>
      if lock && decide (s2.errorcode = code Error.TimeOut) then some (s2, rest)
      else
        let s3 := if !checkHostKey && decide (s2.errorcode = code Error.HostKeyUnknownError) then
            (addKnownHost eng (hostName s2) (hostKey s2) s2).1
          else s2
        if s3.errorcode ≠ 0 then
          match retry with
          | 0 => some (s3, rest)
          | r + 1 => connectLoop code eng fuel lock checkHostKey r rest s3
        else some (s3, rest)

/-- The member function `SshClient::connectSshToHost`: the session afterwards and the returned
`_errorcode`.  `events` is what the local event loop delivers while the call blocks. -/
def connectSshToHost (code : Error → Int) (eng : Engine) (fuel : Nat) (events : List LoopEvent)
    (user host : String) (port : Nat) (lock checkHostKey : Bool) (retry : Nat) (s : Session) :
    Option (Session × Int) :=
  let s1 := { s with hostname := host, username := user, port := port,
                     state := SshState.TcpHostConnected, errorcode := code Error.TimeOut }
  match connectLoop code eng fuel lock checkHostKey retry events s1 with
  | none => none
  | some (s2, _) =>
    let s3 := { s2 with keepalive := true }
    let s4 := s3.log Call.keepalive_config
    some (s4, s4.errorcode)

/-! ## Reading the trace -/

/-- Whether a trace entry is the engine's authentication primitive of method `m`. -/
def Event.isAuthCall (m : AuthenticationMethod) : Event → Bool
  | Event.call (Call.userauth_password _ _) => m == PasswordAuthentication
  | Event.call (Call.userauth_publickey_fromfile _ _ _ _) =>
    m == PublicKeyAuthentication
  | _ => false

/-- The trace entries a run added: those of `s1` beyond the trace of `s`. -/
def newEvents (s s1 : Session) : List Event := s1.trace.drop s.trace.length

/-- The engine call state `s` is about to issue answers would-block at oracle index `i`:
the three suspension tests of `_readyRead`. -/
def wouldBlock (eng : Engine) (s : Session) (i : Nat) : Prop :=
  match s.state with
  | SshState.InitializeSession => eng.session_startup i = LIBSSH2_ERROR_EAGAIN
  | SshState.RequestAuthTypes =>
    eng.userauth_list i = none ∧ eng.userauth_authenticated i = false ∧
      (eng.session_last_error i).1 = LIBSSH2_ERROR_EAGAIN
  | SshState.TryingAuthentication =>
    match s.currentAuthTry with
    | PasswordAuthentication => eng.userauth_password i = LIBSSH2_ERROR_EAGAIN
    | PublicKeyAuthentication =>
      eng.userauth_publickey_fromfile i = LIBSSH2_ERROR_EAGAIN
  | _ => False

/-- The engine primitive, with its arguments, that `_readyRead` issues first in state `s`. -/
def pendingCall (s : Session) : Call :=
  match s.state with
  | SshState.InitializeSession => Call.session_startup
  | SshState.RequestAuthTypes => Call.userauth_list s.username
  | _ =>
    match s.currentAuthTry with
    | PasswordAuthentication =>
      Call.userauth_password s.username (qPrintable s.passphrase)
    | PublicKeyAuthentication =>
      Call.userauth_publickey_fromfile s.username (qPrintable s.publicKey)
        (qPrintable s.privateKey) (qPrintable s.passphrase)

/-- The slot `_readyRead` run `n` times in a row, once per readiness event. -/
def reentries (code : Error → Int) (eng : Engine) (fuel : Nat) : Nat → Session → Option Session
  | 0, s => some s
  | n + 1, s =>
    match readyRead code eng fuel s with
    | none => none
    | some s1 => reentries code eng fuel n s1

/-! ## The fallback loop between `LookingAuthOptions` and `TryingAuthentication`, step by step

The pieces of the two `case` bodies, named so that the outcome of a re-entry can be
written without fuel. -/

/-- The test `_readyRead` makes in `LookingAuthOptions` before it picks method `m`. -/
def qualifies (m : AuthenticationMethod) (s : Session) : Bool :=
  match m with
  | PublicKeyAuthentication =>
    s.availableMethods.contains PublicKeyAuthentication &&
      s.privateKey.isSome &&
      !s.failedMethods.contains PublicKeyAuthentication
  | PasswordAuthentication =>
    s.availableMethods.contains PasswordAuthentication &&
      s.passphrase.isSome &&
      !s.failedMethods.contains PasswordAuthentication

/-- The assignments made when method `m` is picked. -/
def chosen (m : AuthenticationMethod) (s : Session) : Session :=
  { s with currentAuthTry := m, state := SshState.TryingAuthentication }

/-- The end of `case LookingAuthOptions` when no method was picked. -/
def exhausted (code : Error → Int) (s : Session) : Session :=
  { s with errorcode := code Error.AuthenticationError,
           trace := s.trace ++ [Event.sig (Signal.sshAuthenticationRequired s.availableMethods),
             Event.sig Signal.connectionTerminate] }

/-- The value `ret` receives in `case TryingAuthentication`. -/
def authResult (eng : Engine) (s : Session) : Int :=
  match s.currentAuthTry with
  | PasswordAuthentication => eng.userauth_password s.calls
  | PublicKeyAuthentication => eng.userauth_publickey_fromfile s.calls

/-- The session after the authentication primitive was issued. -/
def attempted (s : Session) : Session :=
  { s with calls := s.calls + 1, trace := s.trace ++ [Event.call (pendingCall s)] }

/-- The branch `ret == 0` of `case TryingAuthentication`. -/
def accepted (code : Error → Int) (s : Session) : Session :=
  { attempted s with
      state := SshState.ActivatingChannels,
      errorcode := code Error.NoError,
      trace := (attempted s).trace ++ [Event.sig Signal.sshConnected, Event.sig Signal.connectionTerminate] }

/-- The final `else` of `case TryingAuthentication`, up to the nested `_readyRead()`. -/
def rejected (code : Error → Int) (eng : Engine) (s : Session) : Session :=
  { attempted s with
      errorcode := code Error.AuthenticationError,
      errorMessage := (eng.session_last_error s.calls).2,
      failedMethods := s.failedMethods ++ [s.currentAuthTry],
      state := SshState.LookingAuthOptions,
      trace := (attempted s).trace ++ [Event.sig (Signal.sshError Error.AuthenticationError),
        Event.sig Signal.connectionTerminate] }

/-- The outcome of `case TryingAuthentication` from session `t`, where `next` stands for what
the nested `_readyRead()` of the rejection branch produces. -/
def tryResult (code : Error → Int) (eng : Engine) (next : Session → Session) (t : Session) : Session :=
  if authResult eng t = LIBSSH2_ERROR_EAGAIN then attempted t
  else if authResult eng t = 0 then accepted code t
  else next (rejected code eng t)

/-- The outcome of a re-entry in `LookingAuthOptions`, the nested calls written out. -/
def lookingResult (code : Error → Int) (eng : Engine) (s : Session) : Session :=
  if qualifies PublicKeyAuthentication s then
    tryResult code eng
      (fun u =>
        if qualifies PasswordAuthentication u then
          tryResult code eng (exhausted code) (chosen PasswordAuthentication u)
        else exhausted code u)
      (chosen PublicKeyAuthentication s)
  else if qualifies PasswordAuthentication s then
    tryResult code eng (exhausted code) (chosen PasswordAuthentication s)
  else exhausted code s

/-! ## Concrete inputs used to instantiate the theorems -/

/-- The object as `SshClient::SshClient` leaves it: the member initialisers followed by
`_reset()`.  Members the constructor does not initialise are given arbitrary values. -/
def construct : Session :=
  reset
    { state := SshState.NoState, errorcode := 0, errorMessage := "",
      failedMethods := [], availableMethods := [],
      currentAuthTry := PasswordAuthentication,
      hostname := "", username := "", port := 0,
      passphrase := none, publicKey := none, privateKey := none,
      hostKey := { type := KeyType.UnknownType, key := [], hash := [] },
      delayError := Error.NoError,
      session := false, knownHosts := none, keepalive := false,
      cntTxData := 0, cntRxData := 0, calls := 0, trace := [] }

/-- One possible numbering of the error enumerators. -/
def sampleCode : Error → Int
  | Error.NoError => 0
  | Error.AuthenticationError => 1
  | Error.HostKeyUnknownError => 2
  | Error.HostKeyMismatchError => 3
  | Error.ConnectionRefusedError => 4
  | Error.UnexpectedShutdownError => 5
  | Error.TimeOut => 6

/-- An engine whose every primitive would block. -/
def blockingEngine : Engine :=
  { session_startup := fun _ => LIBSSH2_ERROR_EAGAIN,
    session_hostkey := fun _ => (none, 0),
    hostkey_hash := fun _ => [],
    knownhost_check := fun _ => LIBSSH2_KNOWNHOST_CHECK_NOTFOUND,
    userauth_list := fun _ => none,
    userauth_authenticated := fun _ => false,
    session_last_error := fun _ => (LIBSSH2_ERROR_EAGAIN, ""),
    userauth_password := fun _ => LIBSSH2_ERROR_EAGAIN,
    userauth_publickey_fromfile := fun _ => LIBSSH2_ERROR_EAGAIN,
    knownhost_add := fun _ => 0 }

/-- An engine that rejects every key pair (libssh2 error -18) and accepts every password. -/
def keyRejectingEngine : Engine :=
  { blockingEngine with
    session_last_error := fun _ => (-18, "Username/PublicKey combination invalid"),
    userauth_password := fun _ => 0,
    userauth_publickey_fromfile := fun _ => -18 }

/-- A session waiting in `LookingAuthOptions` after the server advertised both methods,
with a key pair and a passphrase supplied. -/
def bothSupplied : Session :=
  { setPassphrase (some "secret") (setKeys (some "ssh-rsa AAAA") (some "PRIVATE KEY") construct) with
    state := SshState.LookingAuthOptions,
    availableMethods := [PublicKeyAuthentication,
      PasswordAuthentication] }

/-- A session waiting in `LookingAuthOptions` after the server advertised only "password",
with nothing supplied by the caller. -/
def passwordOnly : Session :=
  { construct with
    state := SshState.LookingAuthOptions,
    availableMethods := [PasswordAuthentication] }

/-- As `passwordOnly`, the caller having supplied a key pair with `setKeys` and nothing else. -/
def keysOnly : Session :=
  { setKeys (some "ssh-rsa AAAA") (some "PRIVATE KEY") construct with
    state := SshState.LookingAuthOptions,
    availableMethods := [PasswordAuthentication] }

/-- As `keysOnly`, the caller having also supplied the passphrase of the key with
`setPassphrase`. -/
def keysAndPassphrase : Session :=
  { setPassphrase (some "key passphrase")
      (setKeys (some "ssh-rsa AAAA") (some "PRIVATE KEY") construct) with
    state := SshState.LookingAuthOptions,
    availableMethods := [PasswordAuthentication] }

/-- A session whose transport has just connected: the state `_connected()` sets. -/
def handshaking : Session :=
  { construct with state := SshState.InitializeSession, username := "user", hostname := "host" }

/-- A session about to query the advertised methods. -/
def querying : Session :=
  { construct with state := SshState.RequestAuthTypes, username := "user", hostname := "host" }

/-- An engine that reports null-auth success to the method query and would block elsewhere. -/
def nullAuthEngine : Engine :=
  { blockingEngine with userauth_authenticated := fun _ => true }

/-- An engine that completes the handshake with an RSA host key unknown to the trust store,
advertises "password" and accepts the password; its `libssh2_knownhost_add` succeeds. -/
def acceptingEngine : Engine :=
  { blockingEngine with
    session_startup := fun _ => 0,
    session_hostkey := fun _ => (some "HOSTKEY".toList, LIBSSH2_HOSTKEY_TYPE_RSA),
    hostkey_hash := fun _ => "0123456789abcdef".toList,
    userauth_list := fun _ => some "password".toList,
    userauth_password := fun _ => 0 }

/-- An engine like `acceptingEngine` that advertises three methods, one of them unknown to
the client. -/
def advertisingEngine : Engine :=
  { acceptingEngine with
    userauth_list := fun _ => some "publickey,keyboard-interactive,password".toList }

/-- An RSA host identity. -/
def rsaKey : SshKey :=
  { type := KeyType.Rsa, key := "HOSTKEY".toList, hash := "0123456789abcdef".toList }

/-- An engine whose handshake fails (libssh2 error -5, key exchange failure). -/
def handshakeFailingEngine : Engine :=
  { blockingEngine with
    session_startup := fun _ => -5,
    session_last_error := fun _ => (-5, "Unable to exchange encryption keys") }

/-- An engine that completes the handshake and then fails the method query (libssh2 error -13,
socket disconnect). -/
def queryFailingEngine : Engine :=
  { acceptingEngine with
    userauth_list := fun _ => none,
    session_last_error := fun _ => (-13, "Socket disconnect") }

/-! ## Lemmas on single steps of `_readyRead` -/

theorem readyRead_wouldBlock (code : Error → Int) (eng : Engine) (fuel : Nat) (s : Session)
    (hstate : s.state = SshState.InitializeSession ∨ s.state = SshState.RequestAuthTypes ∨
      s.state = SshState.TryingAuthentication)
    (hblock : wouldBlock eng s s.calls) :
    readyRead code eng (fuel + 1) s =
      some { s with calls := s.calls + 1, trace := s.trace ++ [Event.call (pendingCall s)] } := by
  rcases hstate with h | h | h
  · simp only [wouldBlock, h] at hblock
    simp [readyRead, h, hblock, pendingCall, Session.engineCall]
  · simp only [wouldBlock, h] at hblock
    obtain ⟨h1, h2, h3⟩ := hblock
    simp [readyRead, h, h1, h2, h3, pendingCall, Session.engineCall]
  · simp only [wouldBlock, h] at hblock
    cases hc : s.currentAuthTry <;> simp only [hc] at hblock <;>
      simp [readyRead, h, hc, hblock, pendingCall, Session.engineCall]

theorem readyRead_looking (code : Error → Int) (eng : Engine) (fuel : Nat) (s : Session)
    (hstate : s.state = SshState.LookingAuthOptions) :
    readyRead code eng (fuel + 1) s =
      if qualifies PublicKeyAuthentication s then
        readyRead code eng fuel (chosen PublicKeyAuthentication s)
      else if qualifies PasswordAuthentication s then
        readyRead code eng fuel (chosen PasswordAuthentication s)
      else some (exhausted code s) := by
  simp only [readyRead, hstate, qualifies, chosen, exhausted, Session.emit]
  split_ifs <;> simp

theorem readyRead_trying (code : Error → Int) (eng : Engine) (fuel : Nat) (t : Session)
    (hstate : t.state = SshState.TryingAuthentication) :
    readyRead code eng (fuel + 1) t =
      if authResult eng t = LIBSSH2_ERROR_EAGAIN then some (attempted t)
      else if authResult eng t = 0 then some (accepted code t)
      else readyRead code eng fuel (rejected code eng t) := by
  cases hc : t.currentAuthTry <;>
    simp only [readyRead, hstate, hc, authResult, attempted, accepted, rejected, pendingCall,
      Session.engineCall, Session.emit, getLastError] <;>
    split_ifs <;> simp

theorem readyRead_try_last (code : Error → Int) (eng : Engine) (fuel : Nat) (t : Session)
    (hstate : t.state = SshState.TryingAuthentication)
    (hlast : ∀ m, qualifies m (rejected code eng t) = false) :
    readyRead code eng (fuel + 2) t = some (tryResult code eng (exhausted code) t) := by
  rw [readyRead_trying code eng (fuel + 1) t hstate, readyRead_looking code eng fuel _ rfl]
  unfold tryResult
  by_cases h1 : authResult eng t = LIBSSH2_ERROR_EAGAIN
  · simp [h1]
  · by_cases h2 : authResult eng t = 0
    · rw [if_neg h1, if_pos h2, if_neg h1, if_pos h2]
    · simp [h1, h2, hlast]

theorem qualifies_rejected_self (code : Error → Int) (eng : Engine) (m : AuthenticationMethod)
    (s : Session) : qualifies m (rejected code eng (chosen m s)) = false := by
  cases m <;> simp [qualifies, rejected, chosen, attempted]

theorem qualifies_rejected_other (code : Error → Int) (eng : Engine) (m n : AuthenticationMethod)
    (s : Session) (hmn : m ≠ n) :
    qualifies m (rejected code eng (chosen n s)) = qualifies m s := by
  cases m <;> cases n <;> simp_all [qualifies, rejected, chosen, attempted]

theorem readyRead_looking_eq (code : Error → Int) (eng : Engine) (fuel : Nat) (s : Session)
    (hstate : s.state = SshState.LookingAuthOptions) :
    readyRead code eng (fuel + 5) s = some (lookingResult code eng s) := by
  have hlast : ∀ n t m, qualifies m t = false →
      qualifies m (rejected code eng (chosen n t)) = false := by
    intro n t m hm
    by_cases hmn : m = n
    · subst hmn
      exact qualifies_rejected_self code eng m t
    · rw [qualifies_rejected_other code eng m n t hmn]
      exact hm
  rw [readyRead_looking code eng (fuel + 4) s hstate]
  unfold lookingResult
  by_cases hk : qualifies PublicKeyAuthentication s = true
  · rw [if_pos hk, if_pos hk, readyRead_trying code eng (fuel + 3) _ rfl]
    unfold tryResult
    by_cases h1 : authResult eng (chosen PublicKeyAuthentication s) =
        LIBSSH2_ERROR_EAGAIN
    · simp [h1]
    · by_cases h2 : authResult eng (chosen PublicKeyAuthentication s) = 0
      · rw [if_neg h1, if_pos h2, if_neg h1, if_pos h2]
      · rw [if_neg h1, if_neg h2, if_neg h1, if_neg h2, readyRead_looking code eng (fuel + 2) _ rfl,
          qualifies_rejected_self]
        by_cases hp : qualifies PasswordAuthentication
            (rejected code eng (chosen PublicKeyAuthentication s)) = true
        · simp only [hp, if_true, Bool.false_eq_true, if_false]
          rw [readyRead_try_last code eng fuel _ rfl]
          · rfl
          · intro m
            cases m
            · exact qualifies_rejected_self code eng _ _
            · exact hlast _ _ _ (qualifies_rejected_self code eng _ _)
        · simp [hp]
  · rw [if_neg hk, if_neg hk]
    by_cases hp : qualifies PasswordAuthentication s = true
    · rw [if_pos hp, if_pos hp, show fuel + 4 = (fuel + 2) + 2 from rfl,
        readyRead_try_last code eng (fuel + 2) _ rfl]
      intro m
      cases m
      · exact qualifies_rejected_self code eng _ _
      · exact hlast _ _ _ (by simpa using hk)
    · simp [hp]


theorem qualifies_publicKey_iff (s : Session) :
    qualifies PublicKeyAuthentication s = true ↔
      (PublicKeyAuthentication ∈ s.availableMethods ∧ s.privateKey ≠ none ∧
        PublicKeyAuthentication ∉ s.failedMethods) := by
  simp [qualifies, Option.isSome_iff_ne_none, and_assoc]

theorem qualifies_password_iff (s : Session) :
    qualifies PasswordAuthentication s = true ↔
      (PasswordAuthentication ∈ s.availableMethods ∧ s.passphrase ≠ none ∧
        PasswordAuthentication ∉ s.failedMethods) := by
  simp [qualifies, Option.isSome_iff_ne_none, and_assoc]

theorem qualifies_not_failed (m : AuthenticationMethod) (s : Session)
    (h : qualifies m s = true) : m ∉ s.failedMethods := by
  cases m
  · exact ((qualifies_password_iff s).1 h).2.2
  · exact ((qualifies_publicKey_iff s).1 h).2.2

/-- Case analysis of the last attempt of a re-entry. -/
theorem tryResult_cases (code : Error → Int) (eng : Engine) (t : Session) (P : Session → Prop)
    (h_block : authResult eng t = LIBSSH2_ERROR_EAGAIN → P (attempted t))
    (h_ok : authResult eng t ≠ LIBSSH2_ERROR_EAGAIN → authResult eng t = 0 → P (accepted code t))
    (h_rej : authResult eng t ≠ LIBSSH2_ERROR_EAGAIN → authResult eng t ≠ 0 →
      P (exhausted code (rejected code eng t))) :
    P (tryResult code eng (exhausted code) t) := by
  unfold tryResult
  by_cases h1 : authResult eng t = LIBSSH2_ERROR_EAGAIN
  · rw [if_pos h1]
    exact h_block h1
  · rw [if_neg h1]
    by_cases h2 : authResult eng t = 0
    · rw [if_pos h2]
      exact h_ok h1 h2
    · rw [if_neg h2]
      exact h_rej h1 h2

/-- Case analysis of `lookingResult`: the ten ways a re-entry in `LookingAuthOptions` can end. -/
theorem lookingResult_cases (code : Error → Int) (eng : Engine) (s : Session) (P : Session → Prop)
    (h_none : qualifies PublicKeyAuthentication s = false →
      qualifies PasswordAuthentication s = false → P (exhausted code s))
    (h_key_block : qualifies PublicKeyAuthentication s = true →
      authResult eng (chosen PublicKeyAuthentication s) = LIBSSH2_ERROR_EAGAIN →
      P (attempted (chosen PublicKeyAuthentication s)))
    (h_key_ok : qualifies PublicKeyAuthentication s = true →
      authResult eng (chosen PublicKeyAuthentication s) = 0 →
      P (accepted code (chosen PublicKeyAuthentication s)))
    (h_key_rej : qualifies PublicKeyAuthentication s = true →
      authResult eng (chosen PublicKeyAuthentication s) ≠ LIBSSH2_ERROR_EAGAIN →
      authResult eng (chosen PublicKeyAuthentication s) ≠ 0 →
      qualifies PasswordAuthentication s = false →
      P (exhausted code (rejected code eng (chosen PublicKeyAuthentication s))))
    (h_key_rej_pw_block : qualifies PublicKeyAuthentication s = true →
      authResult eng (chosen PublicKeyAuthentication s) ≠ LIBSSH2_ERROR_EAGAIN →
      authResult eng (chosen PublicKeyAuthentication s) ≠ 0 →
      qualifies PasswordAuthentication s = true →
      authResult eng (chosen PasswordAuthentication
        (rejected code eng (chosen PublicKeyAuthentication s))) = LIBSSH2_ERROR_EAGAIN →
      P (attempted (chosen PasswordAuthentication
        (rejected code eng (chosen PublicKeyAuthentication s)))))
    (h_key_rej_pw_ok : qualifies PublicKeyAuthentication s = true →
      authResult eng (chosen PublicKeyAuthentication s) ≠ LIBSSH2_ERROR_EAGAIN →
      authResult eng (chosen PublicKeyAuthentication s) ≠ 0 →
      qualifies PasswordAuthentication s = true →
      authResult eng (chosen PasswordAuthentication
        (rejected code eng (chosen PublicKeyAuthentication s))) = 0 →
      P (accepted code (chosen PasswordAuthentication
        (rejected code eng (chosen PublicKeyAuthentication s)))))
    (h_key_rej_pw_rej : qualifies PublicKeyAuthentication s = true →
      authResult eng (chosen PublicKeyAuthentication s) ≠ LIBSSH2_ERROR_EAGAIN →
      authResult eng (chosen PublicKeyAuthentication s) ≠ 0 →
      qualifies PasswordAuthentication s = true →
      authResult eng (chosen PasswordAuthentication
        (rejected code eng (chosen PublicKeyAuthentication s))) ≠ LIBSSH2_ERROR_EAGAIN →
      authResult eng (chosen PasswordAuthentication
        (rejected code eng (chosen PublicKeyAuthentication s))) ≠ 0 →
      P (exhausted code (rejected code eng (chosen PasswordAuthentication
        (rejected code eng (chosen PublicKeyAuthentication s))))))
    (h_pw_block : qualifies PublicKeyAuthentication s = false →
      qualifies PasswordAuthentication s = true →
      authResult eng (chosen PasswordAuthentication s) = LIBSSH2_ERROR_EAGAIN →
      P (attempted (chosen PasswordAuthentication s)))
    (h_pw_ok : qualifies PublicKeyAuthentication s = false →
      qualifies PasswordAuthentication s = true →
      authResult eng (chosen PasswordAuthentication s) = 0 →
      P (accepted code (chosen PasswordAuthentication s)))
    (h_pw_rej : qualifies PublicKeyAuthentication s = false →
      qualifies PasswordAuthentication s = true →
      authResult eng (chosen PasswordAuthentication s) ≠ LIBSSH2_ERROR_EAGAIN →
      authResult eng (chosen PasswordAuthentication s) ≠ 0 →
      P (exhausted code (rejected code eng (chosen PasswordAuthentication s)))) :
    P (lookingResult code eng s) := by
  unfold lookingResult
  by_cases hk : qualifies PublicKeyAuthentication s = true
  · rw [if_pos hk]
    unfold tryResult
    by_cases h1 : authResult eng (chosen PublicKeyAuthentication s) =
        LIBSSH2_ERROR_EAGAIN
    · rw [if_pos h1]
      exact h_key_block hk h1
    · rw [if_neg h1]
      by_cases h2 : authResult eng (chosen PublicKeyAuthentication s) = 0
      · rw [if_pos h2]
        exact h_key_ok hk h2
      · rw [if_neg h2]
        simp only [qualifies_rejected_other code eng PasswordAuthentication
          PublicKeyAuthentication s (by decide)]
        by_cases hp : qualifies PasswordAuthentication s = true
        · rw [if_pos hp]
          exact tryResult_cases code eng _ P (h_key_rej_pw_block hk h1 h2 hp)
            (fun _ h => h_key_rej_pw_ok hk h1 h2 hp h) (h_key_rej_pw_rej hk h1 h2 hp)
        · rw [if_neg hp]
          exact h_key_rej hk h1 h2 (by simpa using hp)
  · rw [if_neg hk]
    by_cases hp : qualifies PasswordAuthentication s = true
    · rw [if_pos hp]
      exact tryResult_cases code eng _ P (h_pw_block (by simpa using hk) hp)
        (fun _ h => h_pw_ok (by simpa using hk) hp h) (h_pw_rej (by simpa using hk) hp)
    · rw [if_neg hp]
      exact h_none (by simpa using hk) (by simpa using hp)

theorem lookingResult_authCall (code : Error → Int) (eng : Engine) (s : Session) :
    ∀ e, e ∈ newEvents s (lookingResult code eng s) → ∀ m, e.isAuthCall m = true →
      qualifies m s = true := by
  apply lookingResult_cases code eng s
    (fun r => id (∀ e, e ∈ newEvents s r → ∀ m, e.isAuthCall m = true → qualifies m s = true))
  all_goals
    intros
    simp [newEvents, exhausted, rejected, accepted, attempted, chosen, pendingCall,
      Event.isAuthCall, *]

/-! ## The claims -/

/-- Claim C1.  A re-entry in `LookingAuthOptions` returns, and the first thing it does is call
the engine's key-pair primitive when PublicKey is advertised, a private key is supplied and
PublicKey has not failed; otherwise the password primitive when Password is advertised, a
passphrase is supplied and Password has not failed.  No authentication primitive of a method
that was in the failed set at entry is called at all. -/
theorem auth_choice_priority (code : Error → Int) (eng : Engine) (fuel : Nat) (s : Session)
    (hfuel : 5 ≤ fuel) (hstate : s.state = SshState.LookingAuthOptions) :
    ∃ s1, readyRead code eng fuel s = some s1 ∧
      ((PublicKeyAuthentication ∈ s.availableMethods ∧ s.privateKey ≠ none ∧
          PublicKeyAuthentication ∉ s.failedMethods) →
        ∃ rest, newEvents s s1 = Event.call (Call.userauth_publickey_fromfile s.username
          (qPrintable s.publicKey) (qPrintable s.privateKey) (qPrintable s.passphrase)) :: rest) ∧
      (¬ (PublicKeyAuthentication ∈ s.availableMethods ∧ s.privateKey ≠ none ∧
          PublicKeyAuthentication ∉ s.failedMethods) →
        (PasswordAuthentication ∈ s.availableMethods ∧ s.passphrase ≠ none ∧
          PasswordAuthentication ∉ s.failedMethods) →
        ∃ rest, newEvents s s1 = Event.call (Call.userauth_password s.username
          (qPrintable s.passphrase)) :: rest) ∧
      (∀ m, m ∈ s.failedMethods → ∀ e, e ∈ newEvents s s1 → e.isAuthCall m = false) := by
  obtain ⟨f, rfl⟩ : ∃ f, fuel = f + 5 := ⟨fuel - 5, by omega⟩
  refine ⟨lookingResult code eng s, readyRead_looking_eq code eng f s hstate, ?_, ?_, ?_⟩
  · intro hq
    have hk := (qualifies_publicKey_iff s).2 hq
    apply lookingResult_cases code eng s (fun r => ∃ rest, newEvents s r = _ :: rest)
    all_goals
      intros
      first
        | (simp [hk] at *; done)
        | simp [newEvents, exhausted, rejected, accepted, attempted, chosen, pendingCall]
  · intro hnk hq
    have hk : qualifies PublicKeyAuthentication s = false := by
      rw [Bool.eq_false_iff]
      exact fun h => hnk ((qualifies_publicKey_iff s).1 h)
    have hp := (qualifies_password_iff s).2 hq
    apply lookingResult_cases code eng s (fun r => ∃ rest, newEvents s r = _ :: rest)
    all_goals
      intros
      first
        | (simp [hk, hp] at *; done)
        | simp [newEvents, exhausted, rejected, accepted, attempted, chosen, pendingCall]
  · intro m hm e he
    cases hc : e.isAuthCall m
    · rfl
    · exact absurd hm (qualifies_not_failed m s (lookingResult_authCall code eng s e he m hc))

theorem auth_choice_priority_witness :
    ∃ s1, readyRead sampleCode keyRejectingEngine 5 bothSupplied = some s1 ∧
      ((PublicKeyAuthentication ∈ bothSupplied.availableMethods ∧ bothSupplied.privateKey ≠ none ∧
          PublicKeyAuthentication ∉ bothSupplied.failedMethods) →
        ∃ rest, newEvents bothSupplied s1 = Event.call (Call.userauth_publickey_fromfile
          bothSupplied.username (qPrintable bothSupplied.publicKey)
          (qPrintable bothSupplied.privateKey) (qPrintable bothSupplied.passphrase)) :: rest) ∧
      (¬ (PublicKeyAuthentication ∈ bothSupplied.availableMethods ∧ bothSupplied.privateKey ≠ none ∧
          PublicKeyAuthentication ∉ bothSupplied.failedMethods) →
        (PasswordAuthentication ∈ bothSupplied.availableMethods ∧ bothSupplied.passphrase ≠ none ∧
          PasswordAuthentication ∉ bothSupplied.failedMethods) →
        ∃ rest, newEvents bothSupplied s1 = Event.call (Call.userauth_password
          bothSupplied.username (qPrintable bothSupplied.passphrase)) :: rest) ∧
      (∀ m, m ∈ bothSupplied.failedMethods → ∀ e, e ∈ newEvents bothSupplied s1 →
        e.isAuthCall m = false) :=
  auth_choice_priority sampleCode keyRejectingEngine 5 bothSupplied (by decide) rfl

/-- Claim C2.  When neither method is at once advertised, backed by supplied credentials and
absent from the failed set, a re-entry in `LookingAuthOptions` only stores
`AuthenticationError`, emits `sshAuthenticationRequired` with the current available-method
list and `_connectionTerminate`; no engine primitive is called and the state stays. -/
theorem auth_exhausted_reports (code : Error → Int) (eng : Engine) (fuel : Nat) (s : Session)
    (hfuel : 0 < fuel) (hstate : s.state = SshState.LookingAuthOptions)
    (hkey : ¬ (PublicKeyAuthentication ∈ s.availableMethods ∧ s.privateKey ≠ none ∧
      PublicKeyAuthentication ∉ s.failedMethods))
    (hpass : ¬ (PasswordAuthentication ∈ s.availableMethods ∧ s.passphrase ≠ none ∧
      PasswordAuthentication ∉ s.failedMethods)) :
    readyRead code eng fuel s =
      some { s with
        errorcode := code Error.AuthenticationError,
        trace := s.trace ++ [Event.sig (Signal.sshAuthenticationRequired s.availableMethods),
          Event.sig Signal.connectionTerminate] } := by
  obtain ⟨f, rfl⟩ : ∃ f, fuel = f + 1 := ⟨fuel - 1, by omega⟩
  have hk : qualifies PublicKeyAuthentication s = false := by
    rw [Bool.eq_false_iff]
    exact fun h => hkey ((qualifies_publicKey_iff s).1 h)
  have hp : qualifies PasswordAuthentication s = false := by
    rw [Bool.eq_false_iff]
    exact fun h => hpass ((qualifies_password_iff s).1 h)
  rw [readyRead_looking code eng f s hstate]
  simp [hk, hp, exhausted]

theorem auth_exhausted_reports_witness :
    readyRead sampleCode blockingEngine 1 passwordOnly =
      some { passwordOnly with
        errorcode := sampleCode Error.AuthenticationError,
        trace := passwordOnly.trace ++
          [Event.sig (Signal.sshAuthenticationRequired [PasswordAuthentication]),
            Event.sig Signal.connectionTerminate] } :=
  auth_exhausted_reports sampleCode blockingEngine 1 passwordOnly (by decide) rfl
    (by decide) (by decide)

/-- Claim C3.  In each of the three engine-calling states, as long as the engine answers
would-block, `n` re-entries in a row leave every member variable as it was: the only effect is
that the same engine call has been issued `n` times, with no signal in between. -/
theorem wouldBlock_suspends (code : Error → Int) (eng : Engine) (fuel : Nat) (s : Session)
    (hfuel : 0 < fuel)
    (hstate : s.state = SshState.InitializeSession ∨ s.state = SshState.RequestAuthTypes ∨
      s.state = SshState.TryingAuthentication)
    (n : Nat) (hblock : ∀ k, k < n → wouldBlock eng s (s.calls + k)) :
    reentries code eng fuel n s =
      some { s with calls := s.calls + n,
                    trace := s.trace ++ List.replicate n (Event.call (pendingCall s)) } := by
  obtain ⟨f, rfl⟩ : ∃ f, fuel = f + 1 := ⟨fuel - 1, by omega⟩
  induction n generalizing s with
  | zero => simp [reentries]
  | succ n ih =>
    have h0 : wouldBlock eng s s.calls := by simpa using hblock 0 (Nat.succ_pos n)
    rw [reentries, readyRead_wouldBlock code eng f s hstate h0]
    simp only
    rw [ih]
    · simp [pendingCall, List.replicate_succ, Nat.add_assoc, Nat.add_comm 1 n]
    · simpa using hstate
    · intro k hk
      have := hblock (k + 1) (by omega)
      simpa [wouldBlock, Nat.add_assoc, Nat.add_comm 1 k] using this

theorem wouldBlock_suspends_witness :
    reentries sampleCode blockingEngine 1 3 handshaking =
      some { handshaking with
        calls := handshaking.calls + 3,
        trace := handshaking.trace ++ [Event.call Call.session_startup,
          Event.call Call.session_startup, Event.call Call.session_startup] } :=
  wouldBlock_suspends sampleCode blockingEngine 1 handshaking (by decide) (Or.inl rfl) 3
    (fun _ _ => rfl)

/-- Claim C4.  With both methods qualifying and an empty failed set, when the engine rejects
the key pair and then accepts the password, the re-entry ends in `ActivatingChannels` with
`NoError` stored and a failed list that is exactly PublicKey; a reset then empties it. -/
theorem fallback_key_then_password (code : Error → Int) (eng : Engine) (fuel : Nat) (s : Session)
    (hfuel : 4 ≤ fuel) (hstate : s.state = SshState.LookingAuthOptions)
    (havail : PublicKeyAuthentication ∈ s.availableMethods ∧
      PasswordAuthentication ∈ s.availableMethods)
    (hcred : s.privateKey ≠ none ∧ s.passphrase ≠ none)
    (hfailed : s.failedMethods = [])
    (hreject : eng.userauth_publickey_fromfile s.calls ≠ LIBSSH2_ERROR_EAGAIN ∧
      eng.userauth_publickey_fromfile s.calls ≠ 0)
    (haccept : eng.userauth_password (s.calls + 1) = 0) :
    ∃ s1, readyRead code eng fuel s = some s1 ∧
      s1.state = SshState.ActivatingChannels ∧
      s1.errorcode = code Error.NoError ∧
      s1.failedMethods = [PublicKeyAuthentication] ∧
      PublicKeyAuthentication ∈ s1.failedMethods ∧ PasswordAuthentication ∉ s1.failedMethods ∧
      (reset s1).failedMethods = [] := by
  obtain ⟨f, rfl⟩ : ∃ f, fuel = f + 4 := ⟨fuel - 4, by omega⟩
  have hk : qualifies PublicKeyAuthentication s = true :=
    (qualifies_publicKey_iff s).2 ⟨havail.1, hcred.1, by simp [hfailed]⟩
  have hp : qualifies PasswordAuthentication s = true :=
    (qualifies_password_iff s).2 ⟨havail.2, hcred.2, by simp [hfailed]⟩
  have h1 : authResult eng (chosen PublicKeyAuthentication s) ≠ LIBSSH2_ERROR_EAGAIN := hreject.1
  have h2 : authResult eng (chosen PublicKeyAuthentication s) ≠ 0 := hreject.2
  have h3 : authResult eng (chosen PasswordAuthentication
      (rejected code eng (chosen PublicKeyAuthentication s))) = 0 := haccept
  have h4 : authResult eng (chosen PasswordAuthentication
      (rejected code eng (chosen PublicKeyAuthentication s))) ≠ LIBSSH2_ERROR_EAGAIN := by
    rw [h3]; decide
  have hp2 : qualifies PasswordAuthentication
      (rejected code eng (chosen PublicKeyAuthentication s)) = true := by
    rw [qualifies_rejected_other code eng PasswordAuthentication PublicKeyAuthentication s
      (by decide)]
    exact hp
  refine ⟨accepted code (chosen PasswordAuthentication
    (rejected code eng (chosen PublicKeyAuthentication s))), ?_, rfl, rfl, ?_, ?_, ?_, rfl⟩
  · rw [readyRead_looking code eng (f + 3) s hstate, if_pos hk,
      readyRead_trying code eng (f + 2) _ rfl, if_neg h1, if_neg h2,
      readyRead_looking code eng (f + 1) _ rfl, qualifies_rejected_self, if_neg (by decide),
      if_pos hp2, readyRead_trying code eng f _ rfl, if_neg h4, if_pos h3]
  · simp [accepted, attempted, chosen, rejected, hfailed]
  · simp [accepted, attempted, chosen, rejected, hfailed]
  · simp [accepted, attempted, chosen, rejected, hfailed]

theorem fallback_key_then_password_witness :
    ∃ s1, readyRead sampleCode keyRejectingEngine 4 bothSupplied = some s1 ∧
      s1.state = SshState.ActivatingChannels ∧
      s1.errorcode = sampleCode Error.NoError ∧
      s1.failedMethods = [PublicKeyAuthentication] ∧
      PublicKeyAuthentication ∈ s1.failedMethods ∧ PasswordAuthentication ∉ s1.failedMethods ∧
      (reset s1).failedMethods = [] :=
  fallback_key_then_password sampleCode keyRejectingEngine 4 bothSupplied (by decide) rfl
    (by decide) (by decide) rfl (by decide) rfl

/-- Claim C5, as stated, fails: the engine rejects the key pair, Password still qualifies and
is tried next (and accepted), yet `sshError(AuthenticationError)` was emitted for the
rejected key pair. -/
theorem rejection_signalled_despite_fallback :
    (readyRead sampleCode keyRejectingEngine 4 bothSupplied).map (newEvents bothSupplied) =
      some [Event.call (Call.userauth_publickey_fromfile "" "ssh-rsa AAAA" "PRIVATE KEY" "secret"),
        Event.sig (Signal.sshError Error.AuthenticationError),
        Event.sig Signal.connectionTerminate,
        Event.call (Call.userauth_password "" "secret"),
        Event.sig Signal.sshConnected,
        Event.sig Signal.connectionTerminate] ∧
    qualifies PasswordAuthentication bothSupplied = true := by
  decide

/-- Claim C5, amended.  A re-entry in `LookingAuthOptions` returns, and every rejection by
the engine is signalled and recorded there and then.  When the key pair qualifies and the
engine answers its call (oracle index `s.calls`) with a value other than would-block and 0,
the trace continues with `sshError(AuthenticationError)` and `_connectionTerminate` and PublicKey
is appended to the failed list, before anything else happens: if Password does not qualify the
exhaustion signals follow, and if it qualifies the password call follows and its answer (index
`s.calls + 1`) decides the rest, a rejection being signalled and appended the same way.  When
the key pair does not qualify and the password is rejected, the same holds of Password.  When
no call is answered with a rejection the failed list is unchanged and no `sshError` is in the
trace.  In all cases the rejected methods are appended to the failed list with one
`sshError(AuthenticationError)` each, and `sshAuthenticationRequired` is emitted only in a final
state in which no method qualifies, carrying the available-method list. -/
theorem rejection_always_signalled (code : Error → Int) (eng : Engine) (fuel : Nat) (s : Session)
    (hfuel : 5 ≤ fuel) (hstate : s.state = SshState.LookingAuthOptions) :
    ∃ s1, readyRead code eng fuel s = some s1 ∧
      (qualifies PublicKeyAuthentication s = true →
        eng.userauth_publickey_fromfile s.calls ≠ LIBSSH2_ERROR_EAGAIN →
        eng.userauth_publickey_fromfile s.calls ≠ 0 →
        qualifies PasswordAuthentication s = false →
        newEvents s s1 =
          [Event.call (Call.userauth_publickey_fromfile s.username (qPrintable s.publicKey)
              (qPrintable s.privateKey) (qPrintable s.passphrase)),
            Event.sig (Signal.sshError Error.AuthenticationError),
            Event.sig Signal.connectionTerminate,
            Event.sig (Signal.sshAuthenticationRequired s.availableMethods),
            Event.sig Signal.connectionTerminate] ∧
          s1.failedMethods = s.failedMethods ++ [PublicKeyAuthentication]) ∧
      (qualifies PublicKeyAuthentication s = true →
        eng.userauth_publickey_fromfile s.calls ≠ LIBSSH2_ERROR_EAGAIN →
        eng.userauth_publickey_fromfile s.calls ≠ 0 →
        qualifies PasswordAuthentication s = true →
        eng.userauth_password (s.calls + 1) = LIBSSH2_ERROR_EAGAIN →
        newEvents s s1 =
          [Event.call (Call.userauth_publickey_fromfile s.username (qPrintable s.publicKey)
              (qPrintable s.privateKey) (qPrintable s.passphrase)),
            Event.sig (Signal.sshError Error.AuthenticationError),
            Event.sig Signal.connectionTerminate,
            Event.call (Call.userauth_password s.username (qPrintable s.passphrase))] ∧
          s1.failedMethods = s.failedMethods ++ [PublicKeyAuthentication]) ∧
      (qualifies PublicKeyAuthentication s = true →
        eng.userauth_publickey_fromfile s.calls ≠ LIBSSH2_ERROR_EAGAIN →
        eng.userauth_publickey_fromfile s.calls ≠ 0 →
        qualifies PasswordAuthentication s = true →
        eng.userauth_password (s.calls + 1) = 0 →
        newEvents s s1 =
          [Event.call (Call.userauth_publickey_fromfile s.username (qPrintable s.publicKey)
              (qPrintable s.privateKey) (qPrintable s.passphrase)),
            Event.sig (Signal.sshError Error.AuthenticationError),
            Event.sig Signal.connectionTerminate,
            Event.call (Call.userauth_password s.username (qPrintable s.passphrase)),
            Event.sig Signal.sshConnected,
            Event.sig Signal.connectionTerminate] ∧
          s1.failedMethods = s.failedMethods ++ [PublicKeyAuthentication]) ∧
      (qualifies PublicKeyAuthentication s = true →
        eng.userauth_publickey_fromfile s.calls ≠ LIBSSH2_ERROR_EAGAIN →
        eng.userauth_publickey_fromfile s.calls ≠ 0 →
        qualifies PasswordAuthentication s = true →
        eng.userauth_password (s.calls + 1) ≠ LIBSSH2_ERROR_EAGAIN →
        eng.userauth_password (s.calls + 1) ≠ 0 →
        newEvents s s1 =
          [Event.call (Call.userauth_publickey_fromfile s.username (qPrintable s.publicKey)
              (qPrintable s.privateKey) (qPrintable s.passphrase)),
            Event.sig (Signal.sshError Error.AuthenticationError),
            Event.sig Signal.connectionTerminate,
            Event.call (Call.userauth_password s.username (qPrintable s.passphrase)),
            Event.sig (Signal.sshError Error.AuthenticationError),
            Event.sig Signal.connectionTerminate,
            Event.sig (Signal.sshAuthenticationRequired s.availableMethods),
            Event.sig Signal.connectionTerminate] ∧
          s1.failedMethods = s.failedMethods ++ [PublicKeyAuthentication, PasswordAuthentication]) ∧
      (qualifies PublicKeyAuthentication s = false →
        qualifies PasswordAuthentication s = true →
        eng.userauth_password s.calls ≠ LIBSSH2_ERROR_EAGAIN →
        eng.userauth_password s.calls ≠ 0 →
        newEvents s s1 =
          [Event.call (Call.userauth_password s.username (qPrintable s.passphrase)),
            Event.sig (Signal.sshError Error.AuthenticationError),
            Event.sig Signal.connectionTerminate,
            Event.sig (Signal.sshAuthenticationRequired s.availableMethods),
            Event.sig Signal.connectionTerminate] ∧
          s1.failedMethods = s.failedMethods ++ [PasswordAuthentication]) ∧
      ((qualifies PublicKeyAuthentication s = true →
          eng.userauth_publickey_fromfile s.calls = LIBSSH2_ERROR_EAGAIN ∨
            eng.userauth_publickey_fromfile s.calls = 0) →
        (qualifies PublicKeyAuthentication s = false →
          qualifies PasswordAuthentication s = true →
          eng.userauth_password s.calls = LIBSSH2_ERROR_EAGAIN ∨
            eng.userauth_password s.calls = 0) →
        s1.failedMethods = s.failedMethods ∧
          Event.sig (Signal.sshError Error.AuthenticationError) ∉ newEvents s s1) ∧
      (∃ rej, s1.failedMethods = s.failedMethods ++ rej ∧
        (newEvents s s1).count (Event.sig (Signal.sshError Error.AuthenticationError)) = rej.length) ∧
      (∀ l, Event.sig (Signal.sshAuthenticationRequired l) ∈ newEvents s s1 →
        l = s1.availableMethods ∧ s1.state = SshState.LookingAuthOptions ∧
          ∀ m, qualifies m s1 = false) := by
  obtain ⟨f, rfl⟩ : ∃ f, fuel = f + 5 := ⟨fuel - 5, by omega⟩
  refine ⟨lookingResult code eng s, readyRead_looking_eq code eng f s hstate,
    ?_, ?_, ?_, ?_, ?_, ?_, ?_, ?_⟩
  · apply lookingResult_cases code eng s (fun r => id
      (qualifies PublicKeyAuthentication s = true →
        eng.userauth_publickey_fromfile s.calls ≠ LIBSSH2_ERROR_EAGAIN →
        eng.userauth_publickey_fromfile s.calls ≠ 0 →
        qualifies PasswordAuthentication s = false →
        newEvents s r =
          [Event.call (Call.userauth_publickey_fromfile s.username (qPrintable s.publicKey)
              (qPrintable s.privateKey) (qPrintable s.passphrase)),
            Event.sig (Signal.sshError Error.AuthenticationError),
            Event.sig Signal.connectionTerminate,
            Event.sig (Signal.sshAuthenticationRequired s.availableMethods),
            Event.sig Signal.connectionTerminate] ∧
          r.failedMethods = s.failedMethods ++ [PublicKeyAuthentication]))
    all_goals
      intros
      simp only [id]
      intros
      simp_all [authResult, chosen, rejected, attempted, accepted, exhausted, newEvents,
        pendingCall, LIBSSH2_ERROR_EAGAIN]
  · apply lookingResult_cases code eng s (fun r => id
      (qualifies PublicKeyAuthentication s = true →
        eng.userauth_publickey_fromfile s.calls ≠ LIBSSH2_ERROR_EAGAIN →
        eng.userauth_publickey_fromfile s.calls ≠ 0 →
        qualifies PasswordAuthentication s = true →
        eng.userauth_password (s.calls + 1) = LIBSSH2_ERROR_EAGAIN →
        newEvents s r =
          [Event.call (Call.userauth_publickey_fromfile s.username (qPrintable s.publicKey)
              (qPrintable s.privateKey) (qPrintable s.passphrase)),
            Event.sig (Signal.sshError Error.AuthenticationError),
            Event.sig Signal.connectionTerminate,
            Event.call (Call.userauth_password s.username (qPrintable s.passphrase))] ∧
          r.failedMethods = s.failedMethods ++ [PublicKeyAuthentication]))
    all_goals
      intros
      simp only [id]
      intros
      simp_all [authResult, chosen, rejected, attempted, accepted, exhausted, newEvents,
        pendingCall, LIBSSH2_ERROR_EAGAIN]
  · apply lookingResult_cases code eng s (fun r => id
      (qualifies PublicKeyAuthentication s = true →
        eng.userauth_publickey_fromfile s.calls ≠ LIBSSH2_ERROR_EAGAIN →
        eng.userauth_publickey_fromfile s.calls ≠ 0 →
        qualifies PasswordAuthentication s = true →
        eng.userauth_password (s.calls + 1) = 0 →
        newEvents s r =
          [Event.call (Call.userauth_publickey_fromfile s.username (qPrintable s.publicKey)
              (qPrintable s.privateKey) (qPrintable s.passphrase)),
            Event.sig (Signal.sshError Error.AuthenticationError),
            Event.sig Signal.connectionTerminate,
            Event.call (Call.userauth_password s.username (qPrintable s.passphrase)),
            Event.sig Signal.sshConnected,
            Event.sig Signal.connectionTerminate] ∧
          r.failedMethods = s.failedMethods ++ [PublicKeyAuthentication]))
    all_goals
      intros
      simp only [id]
      intros
      simp_all [authResult, chosen, rejected, attempted, accepted, exhausted, newEvents,
        pendingCall, LIBSSH2_ERROR_EAGAIN]
  · apply lookingResult_cases code eng s (fun r => id
      (qualifies PublicKeyAuthentication s = true →
        eng.userauth_publickey_fromfile s.calls ≠ LIBSSH2_ERROR_EAGAIN →
        eng.userauth_publickey_fromfile s.calls ≠ 0 →
        qualifies PasswordAuthentication s = true →
        eng.userauth_password (s.calls + 1) ≠ LIBSSH2_ERROR_EAGAIN →
        eng.userauth_password (s.calls + 1) ≠ 0 →
        newEvents s r =
          [Event.call (Call.userauth_publickey_fromfile s.username (qPrintable s.publicKey)
              (qPrintable s.privateKey) (qPrintable s.passphrase)),
            Event.sig (Signal.sshError Error.AuthenticationError),
            Event.sig Signal.connectionTerminate,
            Event.call (Call.userauth_password s.username (qPrintable s.passphrase)),
            Event.sig (Signal.sshError Error.AuthenticationError),
            Event.sig Signal.connectionTerminate,
            Event.sig (Signal.sshAuthenticationRequired s.availableMethods),
            Event.sig Signal.connectionTerminate] ∧
          r.failedMethods = s.failedMethods ++ [PublicKeyAuthentication, PasswordAuthentication]))
    all_goals
      intros
      simp only [id]
      intros
      simp_all [authResult, chosen, rejected, attempted, accepted, exhausted, newEvents,
        pendingCall, LIBSSH2_ERROR_EAGAIN]
  · apply lookingResult_cases code eng s (fun r => id
      (qualifies PublicKeyAuthentication s = false →
        qualifies PasswordAuthentication s = true →
        eng.userauth_password s.calls ≠ LIBSSH2_ERROR_EAGAIN →
        eng.userauth_password s.calls ≠ 0 →
        newEvents s r =
          [Event.call (Call.userauth_password s.username (qPrintable s.passphrase)),
            Event.sig (Signal.sshError Error.AuthenticationError),
            Event.sig Signal.connectionTerminate,
            Event.sig (Signal.sshAuthenticationRequired s.availableMethods),
            Event.sig Signal.connectionTerminate] ∧
          r.failedMethods = s.failedMethods ++ [PasswordAuthentication]))
    all_goals
      intros
      simp only [id]
      intros
      simp_all [authResult, chosen, rejected, attempted, accepted, exhausted, newEvents,
        pendingCall, LIBSSH2_ERROR_EAGAIN]
  · apply lookingResult_cases code eng s (fun r => id
      ((qualifies PublicKeyAuthentication s = true →
          eng.userauth_publickey_fromfile s.calls = LIBSSH2_ERROR_EAGAIN ∨
            eng.userauth_publickey_fromfile s.calls = 0) →
        (qualifies PublicKeyAuthentication s = false →
          qualifies PasswordAuthentication s = true →
          eng.userauth_password s.calls = LIBSSH2_ERROR_EAGAIN ∨
            eng.userauth_password s.calls = 0) →
        r.failedMethods = s.failedMethods ∧
          Event.sig (Signal.sshError Error.AuthenticationError) ∉ newEvents s r))
    all_goals
      intros
      simp only [id]
      intros
      simp_all [authResult, chosen, rejected, attempted, accepted, exhausted, newEvents,
        pendingCall, LIBSSH2_ERROR_EAGAIN]
  · apply lookingResult_cases code eng s (fun r => ∃ rej, r.failedMethods = s.failedMethods ++ rej ∧
      (newEvents s r).count (Event.sig (Signal.sshError Error.AuthenticationError)) = rej.length)
    · intros; exact ⟨[], by simp [exhausted], by simp [newEvents, exhausted]⟩
    · intros; exact ⟨[], by simp [attempted, chosen], by simp [newEvents, attempted, chosen]⟩
    · intros; exact ⟨[], by simp [accepted, attempted, chosen],
        by simp [newEvents, accepted, attempted, chosen]⟩
    · intros; exact ⟨[PublicKeyAuthentication], by simp [exhausted, rejected, attempted, chosen],
        by simp [newEvents, exhausted, rejected, attempted, chosen]⟩
    · intros; exact ⟨[PublicKeyAuthentication], by simp [rejected, attempted, chosen],
        by simp [newEvents, rejected, attempted, chosen]⟩
    · intros; exact ⟨[PublicKeyAuthentication], by simp [accepted, rejected, attempted, chosen],
        by simp [newEvents, accepted, rejected, attempted, chosen]⟩
    · intros; exact ⟨[PublicKeyAuthentication, PasswordAuthentication],
        by simp [exhausted, rejected, attempted, chosen],
        by simp [newEvents, exhausted, rejected, attempted, chosen]⟩
    · intros; exact ⟨[], by simp [attempted, chosen], by simp [newEvents, attempted, chosen]⟩
    · intros; exact ⟨[], by simp [accepted, attempted, chosen],
        by simp [newEvents, accepted, attempted, chosen]⟩
    · intros; exact ⟨[PasswordAuthentication], by simp [exhausted, rejected, attempted, chosen],
        by simp [newEvents, exhausted, rejected, attempted, chosen]⟩
  · have hex : ∀ t m, qualifies m (exhausted code t) = qualifies m t := by
      intro t m; cases m <;> rfl
    have hall : ∀ t : Session, qualifies PublicKeyAuthentication t = false →
        qualifies PasswordAuthentication t = false →
        ∀ m, qualifies m (exhausted code t) = false := by
      intro t h1 h2 m
      rw [hex]
      cases m
      · exact h2
      · exact h1
    apply lookingResult_cases code eng s (fun r => id (∀ l,
      Event.sig (Signal.sshAuthenticationRequired l) ∈ newEvents s r →
        l = r.availableMethods ∧ r.state = SshState.LookingAuthOptions ∧
          ∀ m, qualifies m r = false))
    · intro hk hp l hl
      refine ⟨?_, hstate, hall s hk hp⟩
      simpa [newEvents, exhausted] using hl
    · intro _ _ l hl
      simp [newEvents, attempted, chosen] at hl
    · intro _ _ l hl
      simp [newEvents, accepted, attempted, chosen] at hl
    · intro _ _ _ hp l hl
      refine ⟨?_, rfl, hall _ (qualifies_rejected_self code eng _ _) ?_⟩
      · simpa [newEvents, exhausted, rejected, attempted, chosen] using hl
      · rw [qualifies_rejected_other code eng PasswordAuthentication PublicKeyAuthentication s (by decide)]; exact hp
    · intro _ _ _ _ _ l hl
      simp [newEvents, rejected, attempted, chosen] at hl
    · intro _ _ _ _ _ l hl
      simp [newEvents, accepted, rejected, attempted, chosen] at hl
    · intro _ _ _ _ _ _ l hl
      refine ⟨?_, rfl, hall _ ?_ (qualifies_rejected_self code eng _ _)⟩
      · simpa [newEvents, exhausted, rejected, attempted, chosen] using hl
      · rw [qualifies_rejected_other code eng PublicKeyAuthentication PasswordAuthentication _ (by decide)]
        exact qualifies_rejected_self code eng _ _
    · intro _ _ _ l hl
      simp [newEvents, attempted, chosen] at hl
    · intro _ _ _ l hl
      simp [newEvents, accepted, attempted, chosen] at hl
    · intro hk _ _ _ l hl
      refine ⟨?_, rfl, hall _ ?_ (qualifies_rejected_self code eng _ _)⟩
      · simpa [newEvents, exhausted, rejected, attempted, chosen] using hl
      · rw [qualifies_rejected_other code eng PublicKeyAuthentication PasswordAuthentication s (by decide)]; exact hk

theorem rejection_always_signalled_witness :
    ∃ s1, readyRead sampleCode keyRejectingEngine 5 bothSupplied = some s1 ∧
      (qualifies PublicKeyAuthentication bothSupplied = true →
        keyRejectingEngine.userauth_publickey_fromfile bothSupplied.calls ≠ LIBSSH2_ERROR_EAGAIN →
        keyRejectingEngine.userauth_publickey_fromfile bothSupplied.calls ≠ 0 →
        qualifies PasswordAuthentication bothSupplied = false →
        newEvents bothSupplied s1 =
          [Event.call (Call.userauth_publickey_fromfile bothSupplied.username (qPrintable bothSupplied.publicKey)
              (qPrintable bothSupplied.privateKey) (qPrintable bothSupplied.passphrase)),
            Event.sig (Signal.sshError Error.AuthenticationError),
            Event.sig Signal.connectionTerminate,
            Event.sig (Signal.sshAuthenticationRequired bothSupplied.availableMethods),
            Event.sig Signal.connectionTerminate] ∧
          s1.failedMethods = bothSupplied.failedMethods ++ [PublicKeyAuthentication]) ∧
      (qualifies PublicKeyAuthentication bothSupplied = true →
        keyRejectingEngine.userauth_publickey_fromfile bothSupplied.calls ≠ LIBSSH2_ERROR_EAGAIN →
        keyRejectingEngine.userauth_publickey_fromfile bothSupplied.calls ≠ 0 →
        qualifies PasswordAuthentication bothSupplied = true →
        keyRejectingEngine.userauth_password (bothSupplied.calls + 1) = LIBSSH2_ERROR_EAGAIN →
        newEvents bothSupplied s1 =
          [Event.call (Call.userauth_publickey_fromfile bothSupplied.username (qPrintable bothSupplied.publicKey)
              (qPrintable bothSupplied.privateKey) (qPrintable bothSupplied.passphrase)),
            Event.sig (Signal.sshError Error.AuthenticationError),
            Event.sig Signal.connectionTerminate,
            Event.call (Call.userauth_password bothSupplied.username (qPrintable bothSupplied.passphrase))] ∧
          s1.failedMethods = bothSupplied.failedMethods ++ [PublicKeyAuthentication]) ∧
      (qualifies PublicKeyAuthentication bothSupplied = true →
        keyRejectingEngine.userauth_publickey_fromfile bothSupplied.calls ≠ LIBSSH2_ERROR_EAGAIN →
        keyRejectingEngine.userauth_publickey_fromfile bothSupplied.calls ≠ 0 →
        qualifies PasswordAuthentication bothSupplied = true →
        keyRejectingEngine.userauth_password (bothSupplied.calls + 1) = 0 →
        newEvents bothSupplied s1 =
          [Event.call (Call.userauth_publickey_fromfile bothSupplied.username (qPrintable bothSupplied.publicKey)
              (qPrintable bothSupplied.privateKey) (qPrintable bothSupplied.passphrase)),
            Event.sig (Signal.sshError Error.AuthenticationError),
            Event.sig Signal.connectionTerminate,
            Event.call (Call.userauth_password bothSupplied.username (qPrintable bothSupplied.passphrase)),
            Event.sig Signal.sshConnected,
            Event.sig Signal.connectionTerminate] ∧
          s1.failedMethods = bothSupplied.failedMethods ++ [PublicKeyAuthentication]) ∧
      (qualifies PublicKeyAuthentication bothSupplied = true →
        keyRejectingEngine.userauth_publickey_fromfile bothSupplied.calls ≠ LIBSSH2_ERROR_EAGAIN →
        keyRejectingEngine.userauth_publickey_fromfile bothSupplied.calls ≠ 0 →
        qualifies PasswordAuthentication bothSupplied = true →
        keyRejectingEngine.userauth_password (bothSupplied.calls + 1) ≠ LIBSSH2_ERROR_EAGAIN →
        keyRejectingEngine.userauth_password (bothSupplied.calls + 1) ≠ 0 →
        newEvents bothSupplied s1 =
          [Event.call (Call.userauth_publickey_fromfile bothSupplied.username (qPrintable bothSupplied.publicKey)
              (qPrintable bothSupplied.privateKey) (qPrintable bothSupplied.passphrase)),
            Event.sig (Signal.sshError Error.AuthenticationError),
            Event.sig Signal.connectionTerminate,
            Event.call (Call.userauth_password bothSupplied.username (qPrintable bothSupplied.passphrase)),
            Event.sig (Signal.sshError Error.AuthenticationError),
            Event.sig Signal.connectionTerminate,
            Event.sig (Signal.sshAuthenticationRequired bothSupplied.availableMethods),
            Event.sig Signal.connectionTerminate] ∧
          s1.failedMethods = bothSupplied.failedMethods ++ [PublicKeyAuthentication, PasswordAuthentication]) ∧
      (qualifies PublicKeyAuthentication bothSupplied = false →
        qualifies PasswordAuthentication bothSupplied = true →
        keyRejectingEngine.userauth_password bothSupplied.calls ≠ LIBSSH2_ERROR_EAGAIN →
        keyRejectingEngine.userauth_password bothSupplied.calls ≠ 0 →
        newEvents bothSupplied s1 =
          [Event.call (Call.userauth_password bothSupplied.username (qPrintable bothSupplied.passphrase)),
            Event.sig (Signal.sshError Error.AuthenticationError),
            Event.sig Signal.connectionTerminate,
            Event.sig (Signal.sshAuthenticationRequired bothSupplied.availableMethods),
            Event.sig Signal.connectionTerminate] ∧
          s1.failedMethods = bothSupplied.failedMethods ++ [PasswordAuthentication]) ∧
      ((qualifies PublicKeyAuthentication bothSupplied = true →
          keyRejectingEngine.userauth_publickey_fromfile bothSupplied.calls = LIBSSH2_ERROR_EAGAIN ∨
            keyRejectingEngine.userauth_publickey_fromfile bothSupplied.calls = 0) →
        (qualifies PublicKeyAuthentication bothSupplied = false →
          qualifies PasswordAuthentication bothSupplied = true →
          keyRejectingEngine.userauth_password bothSupplied.calls = LIBSSH2_ERROR_EAGAIN ∨
            keyRejectingEngine.userauth_password bothSupplied.calls = 0) →
        s1.failedMethods = bothSupplied.failedMethods ∧
          Event.sig (Signal.sshError Error.AuthenticationError) ∉ newEvents bothSupplied s1) ∧
      (∃ rej, s1.failedMethods = bothSupplied.failedMethods ++ rej ∧
        (newEvents bothSupplied s1).count (Event.sig (Signal.sshError Error.AuthenticationError)) = rej.length) ∧
      (∀ l, Event.sig (Signal.sshAuthenticationRequired l) ∈ newEvents bothSupplied s1 →
        l = s1.availableMethods ∧ s1.state = SshState.LookingAuthOptions ∧
          ∀ m, qualifies m s1 = false) :=
  rejection_always_signalled sampleCode keyRejectingEngine 5 bothSupplied (by decide) rfl

/-- Claim C6, as stated, fails when the passphrase of the key was supplied: `_passphrase` is
the only secret the object stores, so with "password" advertised the password primitive is
called with the passphrase of the key, and here the attempt even succeeds. -/
theorem key_passphrase_sent_as_password :
    (readyRead sampleCode keyRejectingEngine 2 keysAndPassphrase).map
        (fun r => (newEvents keysAndPassphrase r, r.state, r.errorcode)) =
      some ([Event.call (Call.userauth_password "" "key passphrase"),
          Event.sig Signal.sshConnected, Event.sig Signal.connectionTerminate],
        SshState.ActivatingChannels, sampleCode Error.NoError) := by
  decide

/-- Claim C6, amended.  When PublicKey is not among the advertised methods and no passphrase
is stored, a re-entry in `LookingAuthOptions` stores `AuthenticationError`, reports the
available methods and calls no engine primitive, whatever key pair was supplied. -/
theorem keys_without_passphrase_fail (code : Error → Int) (eng : Engine) (fuel : Nat) (s : Session)
    (hfuel : 0 < fuel) (hstate : s.state = SshState.LookingAuthOptions)
    (honly : PublicKeyAuthentication ∉ s.availableMethods) (hpass : s.passphrase = none) :
    readyRead code eng fuel s =
      some { s with
        errorcode := code Error.AuthenticationError,
        trace := s.trace ++ [Event.sig (Signal.sshAuthenticationRequired s.availableMethods),
          Event.sig Signal.connectionTerminate] } := by
  obtain ⟨f, rfl⟩ : ∃ f, fuel = f + 1 := ⟨fuel - 1, by omega⟩
  have hk : qualifies PublicKeyAuthentication s = false := by
    rw [Bool.eq_false_iff]
    exact fun h => honly ((qualifies_publicKey_iff s).1 h).1
  have hp : qualifies PasswordAuthentication s = false := by
    rw [Bool.eq_false_iff]
    exact fun h => ((qualifies_password_iff s).1 h).2.1 hpass
  rw [readyRead_looking code eng f s hstate]
  simp [hk, hp, exhausted]

theorem keys_without_passphrase_fail_witness :
    readyRead sampleCode keyRejectingEngine 1 keysOnly =
      some { keysOnly with
        errorcode := sampleCode Error.AuthenticationError,
        trace := keysOnly.trace ++
          [Event.sig (Signal.sshAuthenticationRequired [PasswordAuthentication]),
            Event.sig Signal.connectionTerminate] } :=
  keys_without_passphrase_fail sampleCode keyRejectingEngine 1 keysOnly (by decide) rfl
    (by decide) rfl

/-- Claim C7.  `_reset` leaves state `NoState`, empty failed and available lists, error code 0
and an empty error message; a second `_reset` changes no member variable: it only adds its own
signal and engine calls to the trace. -/
theorem reset_idempotent (s : Session) :
    (reset s).state = SshState.NoState ∧
    (reset s).failedMethods = [] ∧
    (reset s).availableMethods = [] ∧
    (reset s).errorcode = 0 ∧
    (reset s).errorMessage = "" ∧
    reset (reset s) = { reset s with trace := (reset (reset s)).trace } ∧
    (reset (reset s)).trace = (reset s).trace ++
      [Event.sig Signal.sshReset, Event.call Call.knownhost_free, Event.call Call.session_free,
        Event.call Call.session_init_ex, Event.call Call.callback_set_recv,
        Event.call Call.callback_set_send, Event.call Call.knownhost_init,
        Event.call Call.session_set_blocking, Event.call Call.disconnectFromHost] := by
  refine ⟨rfl, rfl, rfl, rfl, rfl, rfl, ?_⟩
  simp [reset, SshState.toNat]

/-- Claim C8 fails on the code: after the null-auth branch of `RequestAuthTypes` the state is
`TryingAuthentication`, whatever the nested `_connected()` did, so `channelReady()` is false. -/
theorem nullAuth_not_channelReady (code : Error → Int) (eng : Engine) (fuel : Nat)
    (s s1 : Session) (hstate : s.state = SshState.RequestAuthTypes)
    (hlist : eng.userauth_list s.calls = none)
    (hauth : eng.userauth_authenticated s.calls = true)
    (hret : readyRead code eng fuel s = some s1) :
    s1.state = SshState.TryingAuthentication ∧ channelReady s1 = false := by
  cases fuel with
  | zero => simp [readyRead] at hret
  | succ f =>
    simp only [readyRead, hstate, hlist, hauth, if_true] at hret
    split at hret
    · simp at hret
    · simp only [Option.some.injEq] at hret
      subst hret
      exact ⟨rfl, rfl⟩

theorem nullAuth_not_channelReady_witness :
    readyRead sampleCode nullAuthEngine 2 querying =
        some { querying with
          state := SshState.TryingAuthentication,
          calls := 2,
          trace := querying.trace ++ [Event.call (Call.userauth_list "user"),
            Event.sig Signal.connected, Event.call Call.session_startup] } ∧
      channelReady { querying with
          state := SshState.TryingAuthentication,
          calls := 2,
          trace := querying.trace ++ [Event.call (Call.userauth_list "user"),
            Event.sig Signal.connected, Event.call Call.session_startup] } = false :=
  ⟨by decide, (nullAuth_not_channelReady sampleCode nullAuthEngine 2 querying _ rfl rfl rfl
    (by decide)).2⟩

/-- Claim C9 fails on the code: for an RSA or DSA key, when `libssh2_knownhost_add` reports
success (0), `addKnownHost` returns that 0 converted to `bool`, which is false, although the
record was stored. -/
theorem addKnownHost_success_returns_false (eng : Engine) (hostname : String) (key : SshKey)
    (s : Session) (htype : key.type = KeyType.Rsa ∨ key.type = KeyType.Dss)
    (hret : eng.knownhost_add s.calls = 0) :
    (addKnownHost eng hostname key s).2 = false ∧
      Event.call (Call.knownhost_add hostname key.key
        (LIBSSH2_KNOWNHOST_TYPE_PLAIN ||| LIBSSH2_KNOWNHOST_KEYENC_RAW |||
          (if key.type = KeyType.Rsa then LIBSSH2_KNOWNHOST_KEY_SSHRSA
           else LIBSSH2_KNOWNHOST_KEY_SSHDSS))) ∈ (addKnownHost eng hostname key s).1.trace := by
  rcases htype with h | h <;> simp [addKnownHost, h, hret, Session.engineCall]

theorem addKnownHost_success_returns_false_witness :
    (addKnownHost acceptingEngine "host" rsaKey construct).2 = false ∧
      Event.call (Call.knownhost_add "host" rsaKey.key
        (LIBSSH2_KNOWNHOST_TYPE_PLAIN ||| LIBSSH2_KNOWNHOST_KEYENC_RAW |||
          (if rsaKey.type = KeyType.Rsa then LIBSSH2_KNOWNHOST_KEY_SSHRSA
           else LIBSSH2_KNOWNHOST_KEY_SSHDSS))) ∈
        (addKnownHost acceptingEngine "host" rsaKey construct).1.trace :=
  addKnownHost_success_returns_false acceptingEngine "host" rsaKey construct (Or.inl rfl) rfl


/-- Claim C10 fails on the code: a blocking connect with host-key checking disabled, a
successful handshake and a host key the trust store does not know (`knownhost_check` answers
NOTFOUND) goes on to authenticate and returns `NoError` without ever calling
`libssh2_knownhost_add`; the trust store is still empty afterwards. -/
theorem connect_unknown_host_never_added :
    acceptingEngine.knownhost_check 0 = LIBSSH2_KNOWNHOST_CHECK_NOTFOUND ∧
    (connectSshToHost sampleCode acceptingEngine 4 [LoopEvent.connected] "user" "host" 22
        true false 0 (setPassphrase (some "secret") construct)).map (fun r => r.2) =
      some (sampleCode Error.NoError) ∧
    (connectSshToHost sampleCode acceptingEngine 4 [LoopEvent.connected] "user" "host" 22
        true false 0 (setPassphrase (some "secret") construct)).map (fun r => r.1.state) =
      some SshState.ActivatingChannels ∧
    (connectSshToHost sampleCode acceptingEngine 4 [LoopEvent.connected] "user" "host" 22
        true false 0 (setPassphrase (some "secret") construct)).map (fun r => r.1.hostKey) =
      some rsaKey ∧
    (connectSshToHost sampleCode acceptingEngine 4 [LoopEvent.connected] "user" "host" 22
        true false 0 (setPassphrase (some "secret") construct)).map (fun r => r.1.knownHosts) =
      some (some []) ∧
    (connectSshToHost sampleCode acceptingEngine 4 [LoopEvent.connected] "user" "host" 22
        true false 0 (setPassphrase (some "secret") construct)).map
        (fun r => newEvents construct r.1) =
      some [Event.call (Call.connectToHost "host" 22),
          Event.call Call.session_startup,
          Event.call (Call.knownhost_check "host" "HOSTKEY".toList
            (LIBSSH2_KNOWNHOST_TYPE_PLAIN ||| LIBSSH2_KNOWNHOST_KEYENC_RAW)),
          Event.call (Call.userauth_list "user"),
          Event.call (Call.userauth_password "user" "secret"),
          Event.sig Signal.sshConnected,
          Event.sig Signal.connectionTerminate,
          Event.call Call.keepalive_config] := by
  refine ⟨by decide, by decide!, by decide!, by decide!, by decide!, by decide!⟩

/-! ## Further lemmas: the method list, the connect loop, the keep-alive timer -/

theorem readyRead_knownhost_check_irrelevant (code : Error → Int) (eng : Engine)
    (check : Nat → Int) (fuel : Nat) (s : Session) :
    readyRead code { eng with knownhost_check := check } fuel s = readyRead code eng fuel s := by
  induction fuel generalizing s with
  | zero => rfl
  | succ n ih => simp only [readyRead, ih, getLastError]

theorem lookingResult_availableMethods (code : Error → Int) (eng : Engine) (s : Session) :
    (lookingResult code eng s).availableMethods = s.availableMethods := by
  apply lookingResult_cases code eng s (fun r => r.availableMethods = s.availableMethods)
  all_goals
    intros
    rfl

/-- The method `split` never returns the empty list. -/
theorem split_ne_nil (sep : Char) (l : QByteArray) : split sep l ≠ [] := by
  cases l with
  | nil => simp [split]
  | cons c cs =>
    simp only [split]
    cases split sep cs with
    | nil => simp
    | cons p ps => by_cases hc : c = sep <;> simp [hc]

/-- Joining at least two pieces: the first piece, the separator, and the join of the rest. -/
theorem intercalate_cons_cons (sep p q : QByteArray) (ps : List QByteArray) :
    List.intercalate sep (p :: q :: ps) = p ++ sep ++ List.intercalate sep (q :: ps) := by
  simp [List.intercalate, List.intersperse]

/-- Joining the pieces of `split` with the separator gives the byte string back. -/
theorem intercalate_split (sep : Char) (l : QByteArray) :
    List.intercalate [sep] (split sep l) = l := by
  induction l with
  | nil => simp [split, List.intercalate]
  | cons c cs ih =>
    simp only [split]
    cases h : split sep cs with
    | nil => exact absurd h (split_ne_nil sep cs)
    | cons p ps =>
      rw [h] at ih
      by_cases hc : c = sep
      · simp only [hc, if_true]
        rw [intercalate_cons_cons, ih]
        rfl
      · simp only [hc, if_false]
        cases ps with
        | nil =>
          simp only [List.intercalate, List.intersperse, List.flatten, List.append_nil] at ih ⊢
          rw [ih]
        | cons q qs =>
          rw [intercalate_cons_cons] at ih ⊢
          rw [← ih]
          simp

/-- No piece of `split` contains the separator. -/
theorem split_no_sep (sep : Char) (l : QByteArray) : ∀ p ∈ split sep l, sep ∉ p := by
  induction l with
  | nil => simp [split]
  | cons c cs ih =>
    simp only [split]
    cases h : split sep cs with
    | nil => simp
    | cons p ps =>
      rw [h] at ih
      by_cases hc : c = sep
      · simp only [hc, if_true]
        intro x hx
        rcases List.mem_cons.1 hx with rfl | hx
        · simp
        · exact ih x hx
      · simp only [hc, if_false]
        intro x hx
        rcases List.mem_cons.1 hx with rfl | hx
        · have := ih p (List.mem_cons_self _ _)
          simp only [List.mem_cons, not_or]
          exact ⟨fun h => hc h.symm, this⟩
        · exact ih x (List.mem_cons_of_mem _ hx)

/-- A byte string without the separator is its own single piece. -/
theorem split_of_not_mem (sep : Char) (p : QByteArray) (hp : sep ∉ p) : split sep p = [p] := by
  induction p with
  | nil => rfl
  | cons c cs ih =>
    simp only [List.mem_cons, not_or] at hp
    simp only [split, ih hp.2]
    rw [if_neg (fun h => hp.1 h.symm)]

/-- A separator-free prefix up to the first separator is the first piece of `split`. -/
theorem split_append_sep (sep : Char) (p r : QByteArray) (hp : sep ∉ p) :
    split sep (p ++ sep :: r) = p :: split sep r := by
  induction p with
  | nil =>
    simp only [List.nil_append, split]
    cases h : split sep r with
    | nil => exact absurd h (split_ne_nil sep r)
    | cons q qs => simp
  | cons c cs ih =>
    simp only [List.mem_cons, not_or] at hp
    have hc : ¬ c = sep := fun h => hp.1 h.symm
    show split sep (c :: (cs ++ sep :: r)) = (c :: cs) :: split sep r
    rw [split, ih hp.2]
    simp only [hc, if_false]

/-- The pieces of `split` are the only non-empty list of separator-free pieces with the given
join. -/
theorem split_intercalate (sep : Char) (toks : List QByteArray) (hne : toks ≠ [])
    (hp : ∀ p ∈ toks, sep ∉ p) : split sep (List.intercalate [sep] toks) = toks := by
  induction toks with
  | nil => exact absurd rfl hne
  | cons p ps ih =>
    cases ps with
    | nil =>
      simp only [List.intercalate, List.intersperse, List.flatten, List.append_nil]
      exact split_of_not_mem sep p (hp p (List.mem_cons_self _ _))
    | cons q qs =>
      rw [intercalate_cons_cons]
      have h1 : p ++ [sep] ++ List.intercalate [sep] (q :: qs) =
          p ++ sep :: List.intercalate [sep] (q :: qs) := by simp
      rw [h1, split_append_sep sep p _ (hp p (List.mem_cons_self _ _)),
        ih (by simp) (fun x hx => hp x (List.mem_cons_of_mem _ hx))]

/-- A byte string is a piece of `split` exactly when the input is the join of separator-free
pieces one of which is that byte string. -/
theorem mem_split_iff (sep : Char) (l tok : QByteArray) :
    tok ∈ split sep l ↔
      ∃ toks : List QByteArray, (∀ p ∈ toks, sep ∉ p) ∧ List.intercalate [sep] toks = l ∧
        tok ∈ toks := by
  constructor
  · intro h
    exact ⟨split sep l, split_no_sep sep l, intercalate_split sep l, h⟩
  · rintro ⟨toks, hp, hj, hm⟩
    rw [← hj, split_intercalate sep toks (List.ne_nil_of_mem hm) hp]
    exact hm

/-- The `foreach` appends, in order, one entry per piece that is a recognised name. -/
theorem appendAdvertised_eq (available : List AuthenticationMethod) (toks : List QByteArray) :
    appendAdvertised available toks =
      available ++ toks.filterMap (fun m =>
        if m = "publickey".toList then some PublicKeyAuthentication
        else if m = "password".toList then some PasswordAuthentication
        else none) := by
  induction toks generalizing available with
  | nil => simp [appendAdvertised]
  | cons m ms ih =>
    by_cases h1 : m = "publickey".toList
    · rw [appendAdvertised, if_pos h1, ih, List.filterMap_cons_some (by rw [if_pos h1])]
      simp
    · by_cases h2 : m = "password".toList
      · rw [appendAdvertised, if_neg h1, if_pos h2, ih,
          List.filterMap_cons_some (by rw [if_neg h1, if_pos h2])]
        simp
      · rw [appendAdvertised, if_neg h1, if_neg h2, ih,
          List.filterMap_cons_none (by rw [if_neg h1, if_neg h2])]

theorem appendAdvertised_publicKey (toks : List QByteArray) :
    ∀ available : List AuthenticationMethod,
      PublicKeyAuthentication ∈ appendAdvertised available toks ↔
        PublicKeyAuthentication ∈ available ∨ "publickey".toList ∈ toks := by
  induction toks with
  | nil => intro available; simp [appendAdvertised]
  | cons t ts ih =>
    intro available
    simp only [appendAdvertised]
    split_ifs with h1 h2
    · rw [ih, h1]
      simp only [List.mem_append, List.mem_singleton, List.mem_cons, or_true, true_or]
    · rw [ih]
      constructor
      · rintro (h | h)
        · rcases List.mem_append.1 h with h | h
          · exact Or.inl h
          · simp at h
        · exact Or.inr (List.mem_cons_of_mem _ h)
      · rintro (h | h)
        · exact Or.inl (List.mem_append_left _ h)
        · rcases List.mem_cons.1 h with h | h
          · exact absurd h.symm h1
          · exact Or.inr h
    · rw [ih]
      constructor
      · rintro (h | h)
        · exact Or.inl h
        · exact Or.inr (List.mem_cons_of_mem _ h)
      · rintro (h | h)
        · exact Or.inl h
        · rcases List.mem_cons.1 h with h | h
          · exact absurd h.symm h1
          · exact Or.inr h

theorem appendAdvertised_password (toks : List QByteArray) :
    ∀ available : List AuthenticationMethod,
      PasswordAuthentication ∈ appendAdvertised available toks ↔
        PasswordAuthentication ∈ available ∨ "password".toList ∈ toks := by
  induction toks with
  | nil => intro available; simp [appendAdvertised]
  | cons t ts ih =>
    intro available
    simp only [appendAdvertised]
    split_ifs with h1 h2
    · rw [ih]
      constructor
      · rintro (h | h)
        · rcases List.mem_append.1 h with h | h
          · exact Or.inl h
          · simp at h
        · exact Or.inr (List.mem_cons_of_mem _ h)
      · rintro (h | h)
        · exact Or.inl (List.mem_append_left _ h)
        · rcases List.mem_cons.1 h with h | h
          · rw [h1] at h
            exact absurd h (by decide)
          · exact Or.inr h
    · rw [ih, h2]
      simp only [List.mem_append, List.mem_singleton, List.mem_cons, or_true, true_or]
    · rw [ih]
      constructor
      · rintro (h | h)
        · exact Or.inl h
        · exact Or.inr (List.mem_cons_of_mem _ h)
      · rintro (h | h)
        · exact Or.inl h
        · rcases List.mem_cons.1 h with h | h
          · exact absurd h.symm h2
          · exact Or.inr h

theorem readyRead_list (code : Error → Int) (eng : Engine) (fuel : Nat) (s : Session)
    (alist : QByteArray) (hstate : s.state = SshState.RequestAuthTypes)
    (hlist : eng.userauth_list s.calls = some alist) :
    readyRead code eng (fuel + 1) s = readyRead code eng fuel
      { s with
        calls := s.calls + 1,
        trace := s.trace ++ [Event.call (Call.userauth_list s.username)],
        availableMethods := appendAdvertised s.availableMethods (split ',' alist),
        state := SshState.LookingAuthOptions } := by
  simp only [readyRead, hstate, hlist, Session.engineCall]

theorem readyRead_keepalive (code : Error → Int) (eng : Engine) (fuel : Nat) :
    ∀ s s1 : Session, readyRead code eng fuel s = some s1 → s1.keepalive = true →
      s.keepalive = true := by
  induction fuel with
  | zero => intro s s1 h; simp [readyRead] at h
  | succ n ih =>
    intro s s1 h hk
    simp only [readyRead] at h
    split at h
    · -- InitializeSession
      split at h
      · cases h; exact hk
      · split at h
        · cases h; simp [reset] at hk
        · split at h
          · (have hx := ih _ _ h hk; exact hx)
          · cases h; exact hk
    · -- RequestAuthTypes
      split at h
      · split at h
        · split at h
          · cases h
          · cases h
            rename_i s3 h3
            (have hx := ih _ _ h3 hk; exact hx)
        · split at h
          · cases h; exact hk
          · cases h; simp [reset, Session.emit] at hk
      · (have hx := ih _ _ h hk; exact hx)
    · -- LookingAuthOptions
      split at h
      · (have hx := ih _ _ h hk; exact hx)
      · split at h
        · (have hx := ih _ _ h hk; exact hx)
        · cases h; exact hk
    · -- TryingAuthentication
      split at h
      · cases h
        revert hk
        cases s.currentAuthTry <;> exact id
      · split at h
        · cases h
          revert hk
          cases s.currentAuthTry <;> exact id
        · have := ih _ _ h hk
          revert this
          cases s.currentAuthTry <;> exact id
    · cases h; exact hk
    · cases h; exact hk

/-! ## The claims, continued -/

/-- Claim C11 fails on the code: what `libssh2_knownhost_check` answers has no influence on a
re-entry: engines that differ only in that answer (Mismatch against Match, say) give the same
session, error code and signals.  With a Mismatch answer the run below goes on to authenticate
and emits no error signal. -/
theorem hostkey_mismatch_not_surfaced :
    (∀ (code : Error → Int) (eng : Engine) (fuel : Nat) (s : Session),
      readyRead code { eng with knownhost_check := fun _ => LIBSSH2_KNOWNHOST_CHECK_MISMATCH } fuel s =
        readyRead code { eng with knownhost_check := fun _ => LIBSSH2_KNOWNHOST_CHECK_MATCH } fuel s) ∧
    (readyRead sampleCode
        { acceptingEngine with knownhost_check := fun _ => LIBSSH2_KNOWNHOST_CHECK_MISMATCH } 4
        (setPassphrase (some "secret") handshaking)).map
        (fun r => (newEvents (setPassphrase (some "secret") handshaking) r, r.errorcode)) =
      some ([Event.call Call.session_startup,
          Event.call (Call.knownhost_check "host" "HOSTKEY".toList
            (LIBSSH2_KNOWNHOST_TYPE_PLAIN ||| LIBSSH2_KNOWNHOST_KEYENC_RAW)),
          Event.call (Call.userauth_list "user"),
          Event.call (Call.userauth_password "user" "secret"),
          Event.sig Signal.sshConnected,
          Event.sig Signal.connectionTerminate], sampleCode Error.NoError) := by
  exact ⟨fun code eng fuel s =>
    (readyRead_knownhost_check_irrelevant code eng _ fuel s).trans
      (readyRead_knownhost_check_irrelevant code eng _ fuel s).symm, by decide!⟩

/-- Claim C12.  A handshake call that returns a failure makes the re-entry emit
`sshError(UnexpectedShutdownError)` and `_connectionTerminate` and then reset: the state is
`NoState` and the failed and available lists are empty. -/
theorem handshake_failure_resets (code : Error → Int) (eng : Engine) (fuel : Nat) (s : Session)
    (hfuel : 0 < fuel) (hstate : s.state = SshState.InitializeSession)
    (hfail : eng.session_startup s.calls ≠ 0)
    (hblock : eng.session_startup s.calls ≠ LIBSSH2_ERROR_EAGAIN) :
    ∃ s1, readyRead code eng fuel s = some s1 ∧
      (∃ rest, newEvents s s1 = Event.call Call.session_startup ::
        Event.sig (Signal.sshError Error.UnexpectedShutdownError) ::
        Event.sig Signal.connectionTerminate :: Event.sig Signal.sshReset :: rest) ∧
      s1.state = SshState.NoState ∧ s1.failedMethods = [] ∧ s1.availableMethods = [] := by
  obtain ⟨f, rfl⟩ : ∃ f, fuel = f + 1 := ⟨fuel - 1, by omega⟩
  refine ⟨reset (({ (s.engineCall Call.session_startup).emit
      (Signal.sshError Error.UnexpectedShutdownError) with
      errorcode := code Error.UnexpectedShutdownError }).emit Signal.connectionTerminate),
    ?_, ?_, rfl, rfl, rfl⟩
  · simp only [readyRead, hstate]
    rw [if_neg hblock, if_pos hfail]
  · simp [newEvents, reset, Session.emit, Session.engineCall]

theorem handshake_failure_resets_witness :
    ∃ s1, readyRead sampleCode handshakeFailingEngine 1 handshaking = some s1 ∧
      (∃ rest, newEvents handshaking s1 = Event.call Call.session_startup ::
        Event.sig (Signal.sshError Error.UnexpectedShutdownError) ::
        Event.sig Signal.connectionTerminate :: Event.sig Signal.sshReset :: rest) ∧
      s1.state = SshState.NoState ∧ s1.failedMethods = [] ∧ s1.availableMethods = [] :=
  handshake_failure_resets sampleCode handshakeFailingEngine 1 handshaking (by decide) rfl
    (by decide) (by decide)

/-- Claim C14, as stated, fails: a blocking connect that is refused returns
`ConnectionRefusedError` with the keep-alive timer active in state `TcpHostConnected`; so does
a connect that does not wait; and a re-entry that authenticates leaves an inactive timer
inactive in `ActivatingChannels`. -/
theorem keepalive_active_after_failed_connect :
    (connectSshToHost sampleCode blockingEngine 1
        [LoopEvent.error SocketError.ConnectionRefusedError] "user" "host" 22
        true true 0 construct).map (fun r => (r.2, r.1.state, r.1.keepalive)) =
      some (sampleCode Error.ConnectionRefusedError, SshState.TcpHostConnected, true) ∧
    (connectSshToHost sampleCode blockingEngine 1 [] "user" "host" 22
        false true 0 construct).map (fun r => (r.2, r.1.state, r.1.keepalive)) =
      some (sampleCode Error.TimeOut, SshState.TcpHostConnected, true) ∧
    (readyRead sampleCode keyRejectingEngine 4 bothSupplied).map
        (fun r => (r.state, r.keepalive)) =
      some (SshState.ActivatingChannels, false) := by
  refine ⟨by decide, by decide, by decide⟩

/-- Claim C14, amended.  The keep-alive timer is started by `connectSshToHost` as its last
step, whatever the outcome, and by nothing else: a re-entry of the state machine never turns
an inactive timer active; a connect that does not wait always returns, with the timer active;
`_reset` and `_disconnected` stop the timer; the other member functions leave it as it is. -/
theorem keepalive_started_by_connect (code : Error → Int) (eng : Engine) (fuel : Nat)
    (events : List LoopEvent) (user host : String) (port : Nat) (lock checkHostKey : Bool)
    (retry : Nat) (s : Session) (secret pub priv : Option String) (err : SocketError)
    (key : SshKey) :
    (∀ r, connectSshToHost code eng fuel events user host port lock checkHostKey retry s = some r →
      r.1.keepalive = true) ∧
    (∃ r, connectSshToHost code eng fuel events user host port false checkHostKey retry s = some r ∧
      r.1.keepalive = true) ∧
    (∀ s1, readyRead code eng fuel s = some s1 → s.keepalive = false → s1.keepalive = false) ∧
    (reset s).keepalive = false ∧
    (disconnected s).keepalive = false ∧
    (setPassphrase secret s).keepalive = s.keepalive ∧
    (setKeys pub priv s).keepalive = s.keepalive ∧
    (addKnownHost eng host key s).1.keepalive = s.keepalive ∧
    (tcperror code err s).keepalive = s.keepalive ∧
    (delaydErrorEmit code s).keepalive = s.keepalive ∧
    (cntRate s).keepalive = s.keepalive ∧
    (sendKeepAlive s).keepalive = s.keepalive := by
  have hconn : ∀ (lk : Bool) r, connectSshToHost code eng fuel events user host port lk
      checkHostKey retry s = some r → r.1.keepalive = true := by
    intro lk r h
    simp only [connectSshToHost] at h
    split at h
    · cases h
    · cases h
      rfl
  have hloop : ∀ (n : Nat) (ev : List LoopEvent) (t : Session),
      (connectLoop code eng fuel false checkHostKey n ev t).isSome = true := by
    intro n
    induction n with
    | zero =>
      intro ev t
      rw [connectLoop]
      simp only [Bool.false_eq_true, if_false, Bool.false_and]
      split_ifs <;> rfl
    | succ n ih =>
      intro ev t
      rw [connectLoop]
      simp only [Bool.false_eq_true, if_false, Bool.false_and]
      split_ifs <;> first | exact ih _ _ | rfl
  refine ⟨hconn lock, ?_, ?_, rfl, ?_, rfl, rfl, ?_, ?_, rfl, rfl, rfl⟩
  · cases hc : connectSshToHost code eng fuel events user host port false checkHostKey retry s with
    | none =>
      simp only [connectSshToHost] at hc
      have := hloop retry events
        { s with hostname := host, username := user, port := port,
                 state := SshState.TcpHostConnected, errorcode := code Error.TimeOut }
      split at hc
      · rename_i heq
        rw [heq] at this
        cases this
      · cases hc
    | some r => exact ⟨r, rfl, hconn false r hc⟩
  · intro s1 h hs
    cases hk : s1.keepalive
    · rfl
    · rw [readyRead_keepalive code eng fuel s s1 h hk] at hs
      cases hs
  · simp only [disconnected, Session.emit]
    split_ifs <;> rfl
  · simp only [addKnownHost, Session.engineCall]
    split <;> first | rfl | (split_ifs <;> rfl)
  · cases err <;> rfl

theorem keepalive_started_by_connect_witness :
    (connectSshToHost sampleCode blockingEngine 1 [] "user" "host" 22 false true 2
      construct).map (fun r => r.1.keepalive) = some true := by
  obtain ⟨r, hr, hk⟩ := (keepalive_started_by_connect sampleCode blockingEngine 1 [] "user" "host"
    22 false true 2 construct none none none SocketError.OtherError rsaKey).2.1
  rw [hr]
  exact congrArg some hk

/-- Claim C15.  After `setKeys` PublicKey is not in the failed list and Password is in it exactly
when it was; after `setPassphrase` Password is not in the failed list; neither call changes the
state, the available-method list or the error code. -/
theorem new_credentials_clear_failed (pub priv pass : Option String) (s : Session) :
    PublicKeyAuthentication ∉ (setKeys pub priv s).failedMethods ∧
    (PasswordAuthentication ∈ (setKeys pub priv s).failedMethods ↔
      PasswordAuthentication ∈ s.failedMethods) ∧
    PasswordAuthentication ∉ (setPassphrase pass s).failedMethods ∧
    (setKeys pub priv s).state = s.state ∧
    (setKeys pub priv s).availableMethods = s.availableMethods ∧
    (setKeys pub priv s).errorcode = s.errorcode ∧
    (setPassphrase pass s).state = s.state ∧
    (setPassphrase pass s).availableMethods = s.availableMethods ∧
    (setPassphrase pass s).errorcode = s.errorcode := by
  refine ⟨?_, ?_, ?_, rfl, rfl, rfl, rfl, rfl, rfl⟩
  · simp [setKeys, List.mem_filter]
  · simp [setKeys, List.mem_filter]
  · simp [setPassphrase, List.mem_filter]

/-- Claim C16, as stated, fails: after a reset of a session that holds a key pair and a
passphrase, all three are still stored. -/
theorem reset_keeps_credentials_example :
    (reset bothSupplied).passphrase = some "secret" ∧
    (reset bothSupplied).publicKey = some "ssh-rsa AAAA" ∧
    (reset bothSupplied).privateKey = some "PRIVATE KEY" := by
  decide

/-- Claim C16, amended.  `_reset` leaves the stored passphrase, public key and private key
exactly as they were, so once the server has advertised its methods again, method selection
after a reset qualifies a method exactly when the credential supplied before the reset is
there. -/
theorem reset_keeps_credentials (s : Session) (advertised : List AuthenticationMethod) :
    (reset s).passphrase = s.passphrase ∧
    (reset s).publicKey = s.publicKey ∧
    (reset s).privateKey = s.privateKey ∧
    qualifies PublicKeyAuthentication { reset s with availableMethods := advertised } =
      (advertised.contains PublicKeyAuthentication && s.privateKey.isSome) ∧
    qualifies PasswordAuthentication { reset s with availableMethods := advertised } =
      (advertised.contains PasswordAuthentication && s.passphrase.isSome) := by
  refine ⟨rfl, rfl, rfl, ?_, ?_⟩ <;> simp [qualifies, reset]

/-- Claim C18.  When the engine returns a method list in `RequestAuthTypes`, the re-entry appends
the recognised names to the available list, touches nothing else but the trace and the oracle
index, sets `LookingAuthOptions` and carries on as the re-entry of that state; it returns.  The
pieces it loops over are the comma-delimited tokens of the list: joined with commas they give
the list back, none contains a comma, and they are the only such non-empty list of pieces.  The
available list gains, in order, one entry per token that is "publickey" or "password" and
nothing for any other token; so at the return PublicKey (Password) is available exactly when it
was before or the advertised list is the comma-join of comma-free tokens one of which is
"publickey" ("password"). -/
theorem advertised_list_parsed (code : Error → Int) (eng : Engine) (fuel : Nat) (s : Session)
    (alist : QByteArray) (hfuel : 6 ≤ fuel) (hstate : s.state = SshState.RequestAuthTypes)
    (hlist : eng.userauth_list s.calls = some alist) :
    ∃ s1, readyRead code eng fuel s = some s1 ∧
      readyRead code eng fuel s = readyRead code eng (fuel - 1)
        { s with
          calls := s.calls + 1,
          trace := s.trace ++ [Event.call (Call.userauth_list s.username)],
          availableMethods := appendAdvertised s.availableMethods (split ',' alist),
          state := SshState.LookingAuthOptions } ∧
      s1.availableMethods = appendAdvertised s.availableMethods (split ',' alist) ∧
      (List.intercalate [','] (split ',' alist) = alist ∧
        (∀ p ∈ split ',' alist, ',' ∉ p) ∧
        ∀ toks : List QByteArray, toks ≠ [] → (∀ p ∈ toks, ',' ∉ p) →
          List.intercalate [','] toks = alist → toks = split ',' alist) ∧
      s1.availableMethods =
        s.availableMethods ++ (split ',' alist).filterMap (fun m =>
          if m = "publickey".toList then some PublicKeyAuthentication
          else if m = "password".toList then some PasswordAuthentication
          else none) ∧
      (PublicKeyAuthentication ∈ s1.availableMethods ↔
        PublicKeyAuthentication ∈ s.availableMethods ∨
          ∃ toks : List QByteArray, (∀ p ∈ toks, ',' ∉ p) ∧
            List.intercalate [','] toks = alist ∧ "publickey".toList ∈ toks) ∧
      (PasswordAuthentication ∈ s1.availableMethods ↔
        PasswordAuthentication ∈ s.availableMethods ∨
          ∃ toks : List QByteArray, (∀ p ∈ toks, ',' ∉ p) ∧
            List.intercalate [','] toks = alist ∧ "password".toList ∈ toks) ∧
      (PublicKeyAuthentication ∈ s1.availableMethods ↔
        PublicKeyAuthentication ∈ s.availableMethods ∨ "publickey".toList ∈ split ',' alist) ∧
      (PasswordAuthentication ∈ s1.availableMethods ↔
        PasswordAuthentication ∈ s.availableMethods ∨ "password".toList ∈ split ',' alist) ∧
      (s1.state = SshState.LookingAuthOptions ∨ s1.state = SshState.TryingAuthentication ∨
        s1.state = SshState.ActivatingChannels) := by
  obtain ⟨f, rfl⟩ : ∃ f, fuel = f + 5 + 1 := ⟨fuel - 6, by omega⟩
  have hstep := readyRead_list code eng (f + 5) s alist hstate hlist
  refine ⟨lookingResult code eng
    { s with
      calls := s.calls + 1,
      trace := s.trace ++ [Event.call (Call.userauth_list s.username)],
      availableMethods := appendAdvertised s.availableMethods (split ',' alist),
      state := SshState.LookingAuthOptions }, ?_, hstep, ?_,
    ⟨intercalate_split ',' alist, split_no_sep ',' alist, ?_⟩, ?_, ?_, ?_, ?_, ?_, ?_⟩
  · rw [hstep]
    exact readyRead_looking_eq code eng f _ rfl
  · rw [lookingResult_availableMethods]
  · intro toks hne hp hj
    rw [← hj, split_intercalate ',' toks hne hp]
  · rw [lookingResult_availableMethods]
    exact appendAdvertised_eq _ _
  · rw [lookingResult_availableMethods, ← mem_split_iff]
    exact appendAdvertised_publicKey _ _
  · rw [lookingResult_availableMethods, ← mem_split_iff]
    exact appendAdvertised_password _ _
  · rw [lookingResult_availableMethods]
    exact appendAdvertised_publicKey _ _
  · rw [lookingResult_availableMethods]
    exact appendAdvertised_password _ _
  · apply lookingResult_cases code eng _ (fun r => r.state = SshState.LookingAuthOptions ∨
      r.state = SshState.TryingAuthentication ∨ r.state = SshState.ActivatingChannels)
    all_goals
      intros
      first
        | exact Or.inl rfl
        | exact Or.inr (Or.inl rfl)
        | exact Or.inr (Or.inr rfl)

theorem advertised_list_parsed_witness :
    (split ',' "publickey,keyboard-interactive,password".toList =
        ["publickey".toList, "keyboard-interactive".toList, "password".toList] ∧
      appendAdvertised querying.availableMethods
          (split ',' "publickey,keyboard-interactive,password".toList) =
        [PublicKeyAuthentication, PasswordAuthentication]) ∧
    ∃ s1, readyRead sampleCode advertisingEngine 6 querying = some s1 ∧
      readyRead sampleCode advertisingEngine 6 querying = readyRead sampleCode advertisingEngine (6 - 1)
        { querying with
          calls := querying.calls + 1,
          trace := querying.trace ++ [Event.call (Call.userauth_list querying.username)],
          availableMethods := appendAdvertised querying.availableMethods (split ',' "publickey,keyboard-interactive,password".toList),
          state := SshState.LookingAuthOptions } ∧
      s1.availableMethods = appendAdvertised querying.availableMethods (split ',' "publickey,keyboard-interactive,password".toList) ∧
      (List.intercalate [','] (split ',' "publickey,keyboard-interactive,password".toList) = "publickey,keyboard-interactive,password".toList ∧
        (∀ p ∈ split ',' "publickey,keyboard-interactive,password".toList, ',' ∉ p) ∧
        ∀ toks : List QByteArray, toks ≠ [] → (∀ p ∈ toks, ',' ∉ p) →
          List.intercalate [','] toks = "publickey,keyboard-interactive,password".toList → toks = split ',' "publickey,keyboard-interactive,password".toList) ∧
      s1.availableMethods =
        querying.availableMethods ++ (split ',' "publickey,keyboard-interactive,password".toList).filterMap (fun m =>
          if m = "publickey".toList then some PublicKeyAuthentication
          else if m = "password".toList then some PasswordAuthentication
          else none) ∧
      (PublicKeyAuthentication ∈ s1.availableMethods ↔
        PublicKeyAuthentication ∈ querying.availableMethods ∨
          ∃ toks : List QByteArray, (∀ p ∈ toks, ',' ∉ p) ∧
            List.intercalate [','] toks = "publickey,keyboard-interactive,password".toList ∧ "publickey".toList ∈ toks) ∧
      (PasswordAuthentication ∈ s1.availableMethods ↔
        PasswordAuthentication ∈ querying.availableMethods ∨
          ∃ toks : List QByteArray, (∀ p ∈ toks, ',' ∉ p) ∧
            List.intercalate [','] toks = "publickey,keyboard-interactive,password".toList ∧ "password".toList ∈ toks) ∧
      (PublicKeyAuthentication ∈ s1.availableMethods ↔
        PublicKeyAuthentication ∈ querying.availableMethods ∨ "publickey".toList ∈ split ',' "publickey,keyboard-interactive,password".toList) ∧
      (PasswordAuthentication ∈ s1.availableMethods ↔
        PasswordAuthentication ∈ querying.availableMethods ∨ "password".toList ∈ split ',' "publickey,keyboard-interactive,password".toList) ∧
      (s1.state = SshState.LookingAuthOptions ∨ s1.state = SshState.TryingAuthentication ∨
        s1.state = SshState.ActivatingChannels) :=
  ⟨⟨by decide, by decide⟩,
    advertised_list_parsed sampleCode advertisingEngine 6 querying
      "publickey,keyboard-interactive,password".toList (by decide) rfl rfl⟩

/-- Claim C19.  A re-entry in `LookingAuthOptions` returns once the fuel covers five nested
calls; it has then called each authentication primitive at most once, the oracle index has
advanced by the number of those calls, and it ends in one of three conditions, each with its
cause.  Suspended: the state is `TryingAuthentication`, the last thing done was the call of the
current method, and the engine answered it with would-block.  Success: the state is
`ActivatingChannels`, `NoError` is stored, and the trace ends with the call of the current
method, which the engine answered with 0, followed by `sshConnected` and `_connectionTerminate`.
Exhaustion: the state is `LookingAuthOptions`, `AuthenticationError` is stored, no method
qualifies any more, every method that qualified at entry was called once, answered by the
engine with a value other than would-block and 0, and is in the failed list, and the trace
ends with `sshAuthenticationRequired` and `_connectionTerminate`. -/
theorem fallback_loop_terminates (code : Error → Int) (eng : Engine) (fuel : Nat) (s : Session)
    (hfuel : 5 ≤ fuel) (hstate : s.state = SshState.LookingAuthOptions) :
    ∃ s1, readyRead code eng fuel s = some s1 ∧
      (newEvents s s1).countP (Event.isAuthCall PublicKeyAuthentication) ≤ 1 ∧
      (newEvents s s1).countP (Event.isAuthCall PasswordAuthentication) ≤ 1 ∧
      s1.calls = s.calls + (newEvents s s1).countP (Event.isAuthCall PublicKeyAuthentication) +
        (newEvents s s1).countP (Event.isAuthCall PasswordAuthentication) ∧
      ((s1.state = SshState.TryingAuthentication ∧
          authResult eng { s1 with calls := s1.calls - 1 } = LIBSSH2_ERROR_EAGAIN ∧
          s.calls < s1.calls ∧
          ∃ pre, newEvents s s1 = pre ++ [Event.call (pendingCall s1)]) ∨
        (s1.state = SshState.ActivatingChannels ∧
          authResult eng { s1 with calls := s1.calls - 1 } = 0 ∧
          s.calls < s1.calls ∧
          s1.errorcode = code Error.NoError ∧
          ∃ pre, newEvents s s1 = pre ++ [Event.call (pendingCall s1),
            Event.sig Signal.sshConnected, Event.sig Signal.connectionTerminate]) ∨
        (s1.state = SshState.LookingAuthOptions ∧
          s1.errorcode = code Error.AuthenticationError ∧
          (∀ m, qualifies m s1 = false) ∧
          (∀ m, qualifies m s = true →
            m ∈ s1.failedMethods ∧ (newEvents s s1).countP (Event.isAuthCall m) = 1) ∧
          (qualifies PublicKeyAuthentication s = true →
            eng.userauth_publickey_fromfile s.calls ≠ LIBSSH2_ERROR_EAGAIN ∧
              eng.userauth_publickey_fromfile s.calls ≠ 0) ∧
          (qualifies PasswordAuthentication s = true →
            eng.userauth_password
                (s.calls + (newEvents s s1).countP (Event.isAuthCall PublicKeyAuthentication)) ≠
                LIBSSH2_ERROR_EAGAIN ∧
              eng.userauth_password
                (s.calls + (newEvents s s1).countP (Event.isAuthCall PublicKeyAuthentication)) ≠
                0) ∧
          ∃ pre, newEvents s s1 = pre ++
            [Event.sig (Signal.sshAuthenticationRequired s1.availableMethods),
              Event.sig Signal.connectionTerminate])) := by
  obtain ⟨f, rfl⟩ : ∃ f, fuel = f + 5 := ⟨fuel - 5, by omega⟩
  refine ⟨lookingResult code eng s, readyRead_looking_eq code eng f s hstate, ?_, ?_, ?_, ?_⟩
  · apply lookingResult_cases code eng s (fun r =>
      (newEvents s r).countP (Event.isAuthCall PublicKeyAuthentication) ≤ 1)
    all_goals
      intros
      simp [newEvents, exhausted, attempted, accepted, rejected, chosen, pendingCall,
        Event.isAuthCall, List.countP_cons]
  · apply lookingResult_cases code eng s (fun r =>
      (newEvents s r).countP (Event.isAuthCall PasswordAuthentication) ≤ 1)
    all_goals
      intros
      simp [newEvents, exhausted, attempted, accepted, rejected, chosen, pendingCall,
        Event.isAuthCall, List.countP_cons]
  · apply lookingResult_cases code eng s (fun r =>
      r.calls = s.calls + (newEvents s r).countP (Event.isAuthCall PublicKeyAuthentication) +
              (newEvents s r).countP (Event.isAuthCall PasswordAuthentication))
    all_goals
      intros
      simp [newEvents, exhausted, attempted, accepted, rejected, chosen, pendingCall,
        Event.isAuthCall, List.countP_cons]
  · have hex : ∀ t m, qualifies m (exhausted code t) = qualifies m t := by
      intro t m; cases m <;> rfl
    have hall : ∀ t : Session, qualifies PublicKeyAuthentication t = false →
        qualifies PasswordAuthentication t = false →
        ∀ m, qualifies m (exhausted code t) = false := by
      intro t h1 h2 m
      rw [hex]
      cases m
      · exact h2
      · exact h1
    apply lookingResult_cases code eng s (fun r =>
      (r.state = SshState.TryingAuthentication ∧
                authResult eng { r with calls := r.calls - 1 } = LIBSSH2_ERROR_EAGAIN ∧
                s.calls < r.calls ∧
                ∃ pre, newEvents s r = pre ++ [Event.call (pendingCall r)]) ∨
              (r.state = SshState.ActivatingChannels ∧
                authResult eng { r with calls := r.calls - 1 } = 0 ∧
                s.calls < r.calls ∧
                r.errorcode = code Error.NoError ∧
                ∃ pre, newEvents s r = pre ++ [Event.call (pendingCall r),
                  Event.sig Signal.sshConnected, Event.sig Signal.connectionTerminate]) ∨
              (r.state = SshState.LookingAuthOptions ∧
                r.errorcode = code Error.AuthenticationError ∧
                (∀ m, qualifies m r = false) ∧
                (∀ m, qualifies m s = true →
                  m ∈ r.failedMethods ∧ (newEvents s r).countP (Event.isAuthCall m) = 1) ∧
                (qualifies PublicKeyAuthentication s = true →
                  eng.userauth_publickey_fromfile s.calls ≠ LIBSSH2_ERROR_EAGAIN ∧
                    eng.userauth_publickey_fromfile s.calls ≠ 0) ∧
                (qualifies PasswordAuthentication s = true →
                  eng.userauth_password
                      (s.calls + (newEvents s r).countP (Event.isAuthCall PublicKeyAuthentication)) ≠
                      LIBSSH2_ERROR_EAGAIN ∧
                    eng.userauth_password
                      (s.calls + (newEvents s r).countP (Event.isAuthCall PublicKeyAuthentication)) ≠
                      0) ∧
                ∃ pre, newEvents s r = pre ++
                  [Event.sig (Signal.sshAuthenticationRequired r.availableMethods),
                    Event.sig Signal.connectionTerminate]))
    · intro hk hp
      refine Or.inr (Or.inr ⟨hstate, rfl, hall s hk hp, ?_, ?_, ?_, ⟨[], ?_⟩⟩)
      · intro m hm
        cases m <;> simp_all
      · intro h; simp_all
      · intro h; simp_all
      · simp [newEvents, exhausted]
    · intro _ h
      refine Or.inl ⟨rfl, h, ?_, ⟨[], ?_⟩⟩
      · simp [attempted, chosen]
      · simp [newEvents, attempted, chosen, pendingCall]
    · intro _ h
      refine Or.inr (Or.inl ⟨rfl, h, ?_, rfl, ⟨[], ?_⟩⟩)
      · simp [accepted, attempted, chosen]
      · simp [newEvents, accepted, attempted, chosen, pendingCall]
    · intro hk h1 h2 hp
      refine Or.inr (Or.inr ⟨rfl, rfl,
        hall _ (qualifies_rejected_self code eng _ _) ?_, ?_, ?_, ?_,
        ⟨[Event.call (Call.userauth_publickey_fromfile s.username (qPrintable s.publicKey)
            (qPrintable s.privateKey) (qPrintable s.passphrase)),
          Event.sig (Signal.sshError Error.AuthenticationError), Event.sig Signal.connectionTerminate], ?_⟩⟩)
      · rw [qualifies_rejected_other code eng PasswordAuthentication PublicKeyAuthentication s
          (by decide)]
        exact hp
      · intro m hm
        cases m
        · simp_all
        · simp [newEvents, exhausted, rejected, attempted, chosen, pendingCall,
            Event.isAuthCall, List.countP_cons]
      · intro _
        simpa [authResult, chosen] using And.intro h1 h2
      · intro h; simp_all
      · simp [newEvents, exhausted, accepted, rejected, attempted, chosen, pendingCall]
    · intro _ _ _ _ h
      refine Or.inl ⟨rfl, h, ?_, ⟨[Event.call (Call.userauth_publickey_fromfile s.username (qPrintable s.publicKey)
            (qPrintable s.privateKey) (qPrintable s.passphrase)),
          Event.sig (Signal.sshError Error.AuthenticationError), Event.sig Signal.connectionTerminate], ?_⟩⟩
      · simp [rejected, attempted, chosen]; omega
      · simp [newEvents, exhausted, accepted, rejected, attempted, chosen, pendingCall]
    · intro _ _ _ _ h
      refine Or.inr (Or.inl ⟨rfl, h, ?_, rfl, ⟨[Event.call (Call.userauth_publickey_fromfile s.username (qPrintable s.publicKey)
            (qPrintable s.privateKey) (qPrintable s.passphrase)),
          Event.sig (Signal.sshError Error.AuthenticationError), Event.sig Signal.connectionTerminate], ?_⟩⟩)
      · simp [accepted, rejected, attempted, chosen]; omega
      · simp [newEvents, exhausted, accepted, rejected, attempted, chosen, pendingCall]
    · intro hk h1 h2 hp h3 h4
      refine Or.inr (Or.inr ⟨rfl, rfl,
        hall _ ?_ (qualifies_rejected_self code eng _ _), ?_, ?_, ?_,
        ⟨[Event.call (Call.userauth_publickey_fromfile s.username (qPrintable s.publicKey)
            (qPrintable s.privateKey) (qPrintable s.passphrase)),
          Event.sig (Signal.sshError Error.AuthenticationError), Event.sig Signal.connectionTerminate,
          Event.call (Call.userauth_password s.username (qPrintable s.passphrase)),
          Event.sig (Signal.sshError Error.AuthenticationError), Event.sig Signal.connectionTerminate], ?_⟩⟩)
      · rw [qualifies_rejected_other code eng PublicKeyAuthentication PasswordAuthentication _
          (by decide)]
        exact qualifies_rejected_self code eng _ _
      · intro m hm
        cases m <;>
          simp [newEvents, exhausted, rejected, attempted, chosen, pendingCall,
            Event.isAuthCall, List.countP_cons]
      · intro _
        simpa [authResult, chosen] using And.intro h1 h2
      · intro _
        simpa [authResult, chosen, rejected, attempted, newEvents, exhausted, pendingCall,
          Event.isAuthCall, List.countP_cons] using And.intro h3 h4
      · simp [newEvents, exhausted, accepted, rejected, attempted, chosen, pendingCall]
    · intro _ _ h
      refine Or.inl ⟨rfl, h, ?_, ⟨[], ?_⟩⟩
      · simp [attempted, chosen]
      · simp [newEvents, exhausted, accepted, rejected, attempted, chosen, pendingCall]
    · intro _ _ h
      refine Or.inr (Or.inl ⟨rfl, h, ?_, rfl, ⟨[], ?_⟩⟩)
      · simp [accepted, attempted, chosen]
      · simp [newEvents, exhausted, accepted, rejected, attempted, chosen, pendingCall]
    · intro hk hp h3 h4
      refine Or.inr (Or.inr ⟨rfl, rfl,
        hall _ ?_ (qualifies_rejected_self code eng _ _), ?_, ?_, ?_,
        ⟨[Event.call (Call.userauth_password s.username (qPrintable s.passphrase)),
          Event.sig (Signal.sshError Error.AuthenticationError), Event.sig Signal.connectionTerminate], ?_⟩⟩)
      · rw [qualifies_rejected_other code eng PublicKeyAuthentication PasswordAuthentication s
          (by decide)]
        exact hk
      · intro m hm
        cases m
        · simp [newEvents, exhausted, rejected, attempted, chosen, pendingCall,
            Event.isAuthCall, List.countP_cons]
        · simp_all
      · intro h; simp_all
      · intro _
        simpa [authResult, chosen, rejected, attempted, newEvents, exhausted, pendingCall,
          Event.isAuthCall, List.countP_cons] using And.intro h3 h4
      · simp [newEvents, exhausted, accepted, rejected, attempted, chosen, pendingCall]

theorem fallback_loop_terminates_witness :
    ∃ s1, readyRead sampleCode keyRejectingEngine 5 bothSupplied = some s1 ∧
      (newEvents bothSupplied s1).countP (Event.isAuthCall PublicKeyAuthentication) ≤ 1 ∧
      (newEvents bothSupplied s1).countP (Event.isAuthCall PasswordAuthentication) ≤ 1 ∧
      s1.calls = bothSupplied.calls + (newEvents bothSupplied s1).countP (Event.isAuthCall PublicKeyAuthentication) +
        (newEvents bothSupplied s1).countP (Event.isAuthCall PasswordAuthentication) ∧
      ((s1.state = SshState.TryingAuthentication ∧
          authResult keyRejectingEngine { s1 with calls := s1.calls - 1 } = LIBSSH2_ERROR_EAGAIN ∧
          bothSupplied.calls < s1.calls ∧
          ∃ pre, newEvents bothSupplied s1 = pre ++ [Event.call (pendingCall s1)]) ∨
        (s1.state = SshState.ActivatingChannels ∧
          authResult keyRejectingEngine { s1 with calls := s1.calls - 1 } = 0 ∧
          bothSupplied.calls < s1.calls ∧
          s1.errorcode = sampleCode Error.NoError ∧
          ∃ pre, newEvents bothSupplied s1 = pre ++ [Event.call (pendingCall s1),
            Event.sig Signal.sshConnected, Event.sig Signal.connectionTerminate]) ∨
        (s1.state = SshState.LookingAuthOptions ∧
          s1.errorcode = sampleCode Error.AuthenticationError ∧
          (∀ m, qualifies m s1 = false) ∧
          (∀ m, qualifies m bothSupplied = true →
            m ∈ s1.failedMethods ∧ (newEvents bothSupplied s1).countP (Event.isAuthCall m) = 1) ∧
          (qualifies PublicKeyAuthentication bothSupplied = true →
            keyRejectingEngine.userauth_publickey_fromfile bothSupplied.calls ≠ LIBSSH2_ERROR_EAGAIN ∧
              keyRejectingEngine.userauth_publickey_fromfile bothSupplied.calls ≠ 0) ∧
          (qualifies PasswordAuthentication bothSupplied = true →
            keyRejectingEngine.userauth_password
                (bothSupplied.calls + (newEvents bothSupplied s1).countP (Event.isAuthCall PublicKeyAuthentication)) ≠
                LIBSSH2_ERROR_EAGAIN ∧
              keyRejectingEngine.userauth_password
                (bothSupplied.calls + (newEvents bothSupplied s1).countP (Event.isAuthCall PublicKeyAuthentication)) ≠
                0) ∧
          ∃ pre, newEvents bothSupplied s1 = pre ++
            [Event.sig (Signal.sshAuthenticationRequired s1.availableMethods),
              Event.sig Signal.connectionTerminate])) :=
  fallback_loop_terminates sampleCode keyRejectingEngine 5 bothSupplied (by decide) rfl

/-- Claim C20 fails on the code: in a blocking connect whose handshake fails, and in one whose
method query fails, `sshError(UnexpectedShutdownError)` is emitted and the code is stored, but
`_reset()` zeroes `_errorcode` before the re-entry returns, so `connectSshToHost` returns 0,
which is `NoError`. -/
theorem stored_error_wiped_by_reset :
    (connectSshToHost sampleCode handshakeFailingEngine 1 [LoopEvent.connected] "user" "host" 22
        true true 0 construct).map (fun r => r.2) = some 0 ∧
    (connectSshToHost sampleCode handshakeFailingEngine 1 [LoopEvent.connected] "user" "host" 22
        true true 0 construct).map (fun r => (newEvents construct r.1).take 4) =
      some [Event.call (Call.connectToHost "host" 22),
        Event.call Call.session_startup,
        Event.sig (Signal.sshError Error.UnexpectedShutdownError),
        Event.sig Signal.connectionTerminate] ∧
    (connectSshToHost sampleCode queryFailingEngine 2 [LoopEvent.connected] "user" "host" 22
        true true 0 construct).map (fun r => r.2) = some 0 ∧
    (connectSshToHost sampleCode queryFailingEngine 2 [LoopEvent.connected] "user" "host" 22
        true true 0 construct).map (fun r => (newEvents construct r.1).take 6) =
      some [Event.call (Call.connectToHost "host" 22),
        Event.call Call.session_startup,
        Event.call (Call.knownhost_check "host" "HOSTKEY".toList
          (LIBSSH2_KNOWNHOST_TYPE_PLAIN ||| LIBSSH2_KNOWNHOST_KEYENC_RAW)),
        Event.call (Call.userauth_list "user"),
        Event.sig (Signal.sshError Error.UnexpectedShutdownError),
        Event.sig Signal.connectionTerminate] ∧
    sampleCode Error.NoError = 0 := by
  refine ⟨by decide!, by decide!, by decide!, by decide!, rfl⟩

end QtSsh
